import Mathlib

/-!
# Host-path storage provisioner

A shallow embedding of `provisioner.go`: the decoding of path and node out of a
persistent volume (`getPathAndNodeForPV`), the helper-pod orchestration
(`createHelperPod`) and the two controller entrypoints (`Provision`, `Delete`).

Conventions of the embedding.

* A Go `string` is a sequence of bytes, so `GoString` is `List UInt8`; `len(s)` is
  `List.length` and `s[:n]` is `List.take n`.  Literals are written `str "..."`,
  which is the UTF-8 encoding of the literal.
* A Go pointer that may be `nil` is an `Option`; a nil or empty slice is `[]`.
* The cluster API is the only effectful collaborator.  A `Clientset` gives the answer
  of the API server to each request the code issues: to the pod creation, to the
  `i`-th status fetch of one orchestration, and to the pod deletion.  Every request
  issued is recorded, in order, in a list of `Call`s, and every line written to the
  diagnostic log in a list of strings.
-/

namespace Provisioner

/-! ## Strings -/

/-- A Go string: a finite sequence of bytes. -/
abbrev GoString := List UInt8

/-- The Go string denoted by a literal (its UTF-8 encoding). -/
def str (s : String) : GoString := s.data.flatMap String.utf8EncodeChar

/-! ## Constants of `k8s.io/api/core/v1` used by the code -/

/-- The well-known node label `v1.LabelHostname`. -/
def LabelHostname : GoString := str "kubernetes.io/hostname"

/-- The selector operator `v1.NodeSelectorOpIn`. -/
def NodeSelectorOpIn : GoString := str "In"

/-- The pod phase `v1.PodSucceeded`. -/
def PodSucceeded : GoString := str "Succeeded"

/-- The pod phase `v1.PodFailed`. -/
def PodFailed : GoString := str "Failed"

/-- The pod phase `v1.PodPending`. -/
def PodPending : GoString := str "Pending"

/-- The reclaim policy `v1.PersistentVolumeReclaimRetain`. -/
def PersistentVolumeReclaimRetain : GoString := str "Retain"

/-- The reclaim policy `v1.PersistentVolumeReclaimDelete`. -/
def PersistentVolumeReclaimDelete : GoString := str "Delete"

/-- The restart policy `v1.RestartPolicyNever`. -/
def RestartPolicyNever : GoString := str "Never"

/-- The volume mode `v1.PersistentVolumeFilesystem`. -/
def PersistentVolumeFilesystem : GoString := str "Filesystem"

/-- The host path type `v1.HostPathDirectoryOrCreate`. -/
def HostPathDirectoryOrCreate : GoString := str "DirectoryOrCreate"

/-- The resource name `v1.ResourceStorage`. -/
def ResourceStorage : GoString := str "storage"

/-! ## Package-level declarations of `provisioner.go` -/

/-- The package variable `BaseDir`. -/
def BaseDir : GoString := str "/var/my-storage-provisioner"

/-- The type `ActionType` is a string type. -/
abbrev ActionType := GoString

/-- The constant `ActionTypeCreate`. -/
def ActionTypeCreate : ActionType := str "create"

/-- The constant `ActionTypeDelete`. -/
def ActionTypeDelete : ActionType := str "delete"

/-! ## Errors -/

/-- A Go `error` value: one built by `fmt.Errorf` from a message, or one returned by
the cluster API, which carries a status reason and a message. -/
inductive GoError where
  | errorf (msg : GoString)
  | status (reason : GoString) (message : GoString)
deriving DecidableEq

/-- The method `Error()` of an error: its message, as printed by `%v`. -/
def GoError.Error : GoError → GoString
  | .errorf msg => msg
  | .status _ message => message

/-- The test `k8serror.IsAlreadyExists`: the status reason of the error is
`metav1.StatusReasonAlreadyExists`. -/
def IsAlreadyExists : GoError → Bool
  | .errorf _ => false
  | .status reason _ => decide (reason = str "AlreadyExists")

/-! ## API objects -/

/-- The fields of `metav1.ObjectMeta` the code uses. -/
structure ObjectMeta where
  Name : GoString
  Namespace : GoString := []
deriving DecidableEq

/-- A `v1.NodeSelectorRequirement`. -/
structure NodeSelectorRequirement where
  Key : GoString
  Operator : GoString
  Values : List GoString
deriving DecidableEq

/-- A `v1.NodeSelectorTerm`. -/
structure NodeSelectorTerm where
  MatchExpressions : List NodeSelectorRequirement
  MatchFields : List NodeSelectorRequirement := []
deriving DecidableEq

/-- A `v1.NodeSelector`. -/
structure NodeSelector where
  NodeSelectorTerms : List NodeSelectorTerm
deriving DecidableEq

/-- A `v1.VolumeNodeAffinity`; `Required` is a pointer. -/
structure VolumeNodeAffinity where
  Required : Option NodeSelector
deriving DecidableEq

/-- A `v1.HostPathVolumeSource`; `HostPathType` is the pointer field `Type`. -/
structure HostPathVolumeSource where
  Path : GoString
  HostPathType : Option GoString := none
deriving DecidableEq

/-- The field of `v1.PersistentVolumeSource` the code uses; `HostPath` is a pointer. -/
structure PersistentVolumeSource where
  HostPath : Option HostPathVolumeSource
deriving DecidableEq

/-- A `v1.PersistentVolumeSpec`.  A resource quantity is kept as an integer amount. -/
structure PersistentVolumeSpec where
  PersistentVolumeReclaimPolicy : GoString
  AccessModes : List GoString
  VolumeMode : Option GoString
  Capacity : List (GoString × Int)
  PersistentVolumeSource : PersistentVolumeSource
  NodeAffinity : Option VolumeNodeAffinity
deriving DecidableEq

/-- A `v1.PersistentVolume`. -/
structure PersistentVolume where
  ObjectMeta : ObjectMeta
  Spec : PersistentVolumeSpec
deriving DecidableEq

/-- A `v1.VolumeMount`. -/
structure VolumeMount where
  Name : GoString
  MountPath : GoString
deriving DecidableEq

/-- A `v1.Container`. -/
structure Container where
  Name : GoString
  Image : GoString
  Command : List GoString
  VolumeMounts : List VolumeMount
deriving DecidableEq

/-- The field of `v1.VolumeSource` the code uses. -/
structure VolumeSource where
  HostPath : Option HostPathVolumeSource
deriving DecidableEq

/-- A `v1.Volume`. -/
structure Volume where
  Name : GoString
  VolumeSource : VolumeSource
deriving DecidableEq

/-- A `v1.PodSpec`. -/
structure PodSpec where
  Containers : List Container
  Volumes : List Volume
  NodeName : GoString
  RestartPolicy : GoString
deriving DecidableEq

/-- A `v1.PodStatus`. -/
structure PodStatus where
  Phase : GoString
deriving DecidableEq

/-- A `v1.Pod`. -/
structure Pod where
  ObjectMeta : ObjectMeta
  Spec : PodSpec
  Status : PodStatus := ⟨[]⟩
deriving DecidableEq

/-! ## The cluster API -/

/-- The answers of the cluster API to the requests of one orchestration:
`podsCreate ns pod` is the error of `Pods(ns).Create(pod)` (the created object is
discarded by the code), `podsGet i ns name` the result of the `i`-th `Pods(ns).Get(name)`
(counted from 0), `podsDelete ns name` the error of `Pods(ns).Delete(name)`. -/
structure Clientset where
  podsCreate : GoString → Pod → Option GoError
  podsGet : Nat → GoString → GoString → Except GoError Pod
  podsDelete : GoString → GoString → Option GoError

/-- An effect issued by the code: a request to the cluster API or a sleep. -/
inductive Call where
  | create (ns : GoString) (pod : Pod)
  | get (ns : GoString) (name : GoString)
  | delete (ns : GoString) (name : GoString)
  | sleep (seconds : Nat)
deriving DecidableEq

/-- The struct `HostPathProvisioner` (without its context). -/
structure HostPathProvisioner where
  kubeClient : Clientset
  namespace_ : GoString

/-! ## `getPathAndNodeForPV` -/

/-- The three results of `getPathAndNodeForPV`. -/
structure PathAndNode where
  path : GoString
  node : GoString
  err : Option GoError
deriving DecidableEq

/-- The inner loop of `getPathAndNodeForPV` over the expressions of one term, started
with the current value of `node`: `Except.error` is the early return of the function,
`Except.ok` the value of `node` when the loop is left. -/
def scanExpressions : List NodeSelectorRequirement → GoString → Except GoError GoString
  | [], node => .ok node
  | expression :: rest, node =>
    if expression.Key = LabelHostname ∧ expression.Operator = NodeSelectorOpIn then
      if expression.Values.length ≠ 1 then
        .error (.errorf (str "multiple values for the node affinity"))
      else
        .ok (expression.Values.headD [])
    else
      scanExpressions rest node

/-- The outer loop of `getPathAndNodeForPV` over the selector terms. -/
def scanTerms : List NodeSelectorTerm → GoString → Except GoError GoString
  | [], node => .ok node
  | selectorTerm :: rest, node =>
    match scanExpressions selectorTerm.MatchExpressions node with
    | .error e => .error e
    | .ok node =>
      if node ≠ [] then .ok node else scanTerms rest node

/-- The method `getPathAndNodeForPV`. -/
def getPathAndNodeForPV (_p : HostPathProvisioner) (pv : PersistentVolume) : PathAndNode :=
  let path : GoString :=
    match pv.Spec.PersistentVolumeSource.HostPath with
    | some hostPath => hostPath.Path
    | none => []
  match pv.Spec.NodeAffinity with
  | none => ⟨[], [], some (.errorf (str "no NodeAffinity set"))⟩
  | some nodeAffinity =>
    match nodeAffinity.Required with
    | none => ⟨[], [], some (.errorf (str "no NodeAffinity.Required set"))⟩
    | some required =>
      match scanTerms required.NodeSelectorTerms [] with
      | .error e => ⟨[], [], some e⟩
      | .ok node =>
        if node = [] ∨ path = [] then
          ⟨[], [], some (.errorf (str "cannot find path or affinited node"))⟩
        else
          ⟨path, node, none⟩

/-! ## `createHelperPod` -/

/-- The results of `createHelperPod`, with the requests it issued and the lines it
logged. -/
structure HelperRun where
  scheduledNodeName : GoString
  err : Option GoError
  calls : List Call
  logs : List GoString
deriving DecidableEq

/-- The value of `fmt.Sprintf("my-storage-provisioner-helper-%s-%s", action, pvName)`. -/
def helperPodFullName (action : ActionType) (pvName : GoString) : GoString :=
  str "my-storage-provisioner-helper-" ++ action ++ str "-" ++ pvName

/-- The descriptor `helperPod` as it is when submitted: the struct literal, then the
cut of its name to 128 bytes. -/
def helperPod (p : HostPathProvisioner) (action : ActionType)
    (pvName fullPath nodeName : GoString) : Pod :=
  let cmd : GoString :=
    if action = ActionTypeDelete then str "rm -rf " ++ fullPath
    else str "mkdir -m 0777 -p " ++ fullPath
  let helperPod : Pod :=
    { ObjectMeta := { Name := helperPodFullName action pvName, Namespace := p.namespace_ }
      Spec :=
        { Containers :=
            [{ Name := str "provisioner"
               Image := str "busybox:stable"
               Command := [str "sh", str "-c", cmd]
               VolumeMounts := [{ Name := str "hostpath-volume", MountPath := BaseDir }] }]
          Volumes :=
            [{ Name := str "hostpath-volume"
               VolumeSource := { HostPath := some { Path := BaseDir } } }]
          NodeName := nodeName
          RestartPolicy := RestartPolicyNever } }
  if helperPod.ObjectMeta.Name.length > 128 then
    { helperPod with
      ObjectMeta := { helperPod.ObjectMeta with Name := helperPod.ObjectMeta.Name.take 128 } }
  else
    helperPod

/-- How the polling loop of `createHelperPod` is left. -/
structure PollRun where
  completed : Bool
  scheduledNodeName : GoString
  err : Option GoError
  calls : List Call
deriving DecidableEq

/-- The loop `for i := 0; i < timeoutSeconds; i++` of `createHelperPod`, from the
iteration `i` on; the first argument is the number `timeoutSeconds - i` of iterations
left.  `err` is set when the loop is left by `return "", err`. -/
def pollLoop (kubeClient : Clientset) (ns name : GoString) : Nat → Nat → PollRun
  | 0, _ => { completed := false, scheduledNodeName := [], err := none, calls := [] }
  | left + 1, i =>
    match kubeClient.podsGet i ns name with
    | .error err =>
      { completed := false, scheduledNodeName := [], err := some err
        calls := [.get ns name] }
    | .ok pod =>
      if pod.Status.Phase = PodSucceeded then
        { completed := true, scheduledNodeName := pod.Spec.NodeName, err := none
          calls := [.get ns name] }
      else
        let r := pollLoop kubeClient ns name left (i + 1)
        { r with calls := .get ns name :: .sleep 1 :: r.calls }

/-- The deferred function of `createHelperPod`: the pod is deleted, and a failure of
the deletion is logged. -/
def deferredDelete (kubeClient : Clientset) (ns name : GoString) : List Call × List GoString :=
  match kubeClient.podsDelete ns name with
  | some e => ([.delete ns name], [str "unable to delete the helper pod: " ++ e.Error])
  | none => ([.delete ns name], [])

/-- The method `createHelperPod`. -/
def createHelperPod (p : HostPathProvisioner) (action : ActionType)
    (pvName fullPath nodeName : GoString) : HelperRun :=
  let helperPod := helperPod p action pvName fullPath nodeName
  let ns := helperPod.ObjectMeta.Namespace
  let created := p.kubeClient.podsCreate ns helperPod
  -- `err != nil && !k8serror.IsAlreadyExists(err)`
  match created.filter (fun err => !IsAlreadyExists err) with
  | some err =>
    { scheduledNodeName := [], err := some err, calls := [.create ns helperPod], logs := [] }
  | none =>
    let timeoutSeconds := 120
    let poll := pollLoop p.kubeClient ns helperPod.ObjectMeta.Name timeoutSeconds 0
    -- the deferred function runs when the function returns, on each path below
    let cleanup := deferredDelete p.kubeClient ns helperPod.ObjectMeta.Name
    match poll.err with
    | some err =>
      { scheduledNodeName := [], err := some err
        calls := .create ns helperPod :: poll.calls ++ cleanup.1, logs := cleanup.2 }
    | none =>
      if !poll.completed then
        { scheduledNodeName := []
          err := some (.errorf (str "create process timeout after 120 seconds"))
          calls := .create ns helperPod :: poll.calls ++ cleanup.1, logs := cleanup.2 }
      else
        { scheduledNodeName := poll.scheduledNodeName, err := none
          calls := .create ns helperPod :: poll.calls ++ cleanup.1, logs := cleanup.2 }

/-! ## The entrypoints `Provision` and `Delete` -/

/-- The fields of the claim `opts.PVC` the code reads. -/
structure PersistentVolumeClaim where
  Namespace : GoString
  Name : GoString
  AccessModes : List GoString
  Requests : List (GoString × Int)
deriving DecidableEq

/-- The fields of `controller.ProvisionOptions` the code reads: `SelectedNode` is the
name of the selected node when the pointer is not nil, `ReclaimPolicy` the value of
`*opts.StorageClass.ReclaimPolicy`. -/
structure ProvisionOptions where
  PVName : GoString
  PVC : PersistentVolumeClaim
  SelectedNode : Option GoString
  ReclaimPolicy : GoString
deriving DecidableEq

/-- The type `controller.ProvisioningState`. -/
inductive ProvisioningState where
  | ProvisioningFinished
  | ProvisioningInBackground
  | ProvisioningNoChange
  | ProvisioningReschedule
deriving DecidableEq

/-- The storage object built by `Provision` for the path `fullPath` and the node
`scheduledNodeName` returned by the helper pod. -/
def provisionedPV (opts : ProvisionOptions) (fullPath scheduledNodeName : GoString) :
    PersistentVolume :=
  { ObjectMeta := { Name := opts.PVName }
    Spec :=
      { PersistentVolumeReclaimPolicy := opts.ReclaimPolicy
        AccessModes := opts.PVC.AccessModes
        VolumeMode := some PersistentVolumeFilesystem
        Capacity := [(ResourceStorage, (opts.PVC.Requests.lookup ResourceStorage).getD 0)]
        PersistentVolumeSource :=
          { HostPath := some { Path := fullPath, HostPathType := some HostPathDirectoryOrCreate } }
        NodeAffinity :=
          some { Required := some { NodeSelectorTerms :=
            [{ MatchExpressions :=
                [{ Key := LabelHostname
                   Operator := NodeSelectorOpIn
                   Values := [scheduledNodeName] }] }] } } } }

/-- The results of `Provision`, with the requests issued and the lines logged. -/
structure ProvisionRun where
  pv : Option PersistentVolume
  state : ProvisioningState
  err : Option GoError
  calls : List Call
  logs : List GoString
deriving DecidableEq

/-- The method `Provision`; `filepathJoin` stands for the library function
`filepath.Join` on two elements. -/
def Provision (filepathJoin : GoString → GoString → GoString) (p : HostPathProvisioner)
    (opts : ProvisionOptions) : ProvisionRun :=
  let folderName := opts.PVName ++ str "_" ++ opts.PVC.Namespace ++ str "_" ++ opts.PVC.Name
  let fullPath := filepathJoin BaseDir folderName
  let nodeName : GoString :=
    match opts.SelectedNode with
    | some name => name
    | none => []
  let run := createHelperPod p ActionTypeCreate opts.PVName fullPath nodeName
  match run.err with
  | some err =>
    { pv := none, state := .ProvisioningFinished, err := some err
      calls := run.calls, logs := run.logs }
  | none =>
    { pv := some (provisionedPV opts fullPath run.scheduledNodeName)
      state := .ProvisioningFinished, err := none, calls := run.calls, logs := run.logs }

/-- The result of `Delete`, with the requests issued and the lines logged. -/
structure DeleteRun where
  err : Option GoError
  calls : List Call
  logs : List GoString
deriving DecidableEq

/-- The method `Delete`. -/
def Delete (p : HostPathProvisioner) (pv : PersistentVolume) : DeleteRun :=
  let decoded := getPathAndNodeForPV p pv
  match decoded.err with
  | some err => { err := some err, calls := [], logs := [] }
  | none =>
    if pv.Spec.PersistentVolumeReclaimPolicy ≠ PersistentVolumeReclaimRetain then
      let run := createHelperPod p ActionTypeDelete pv.ObjectMeta.Name decoded.path decoded.node
      match run.err with
      | some err => { err := some err, calls := run.calls, logs := run.logs }
      | none => { err := none, calls := run.calls, logs := run.logs }
    else
      { err := none, calls := [], logs := [] }

/-! ## Vocabulary of the properties -/

/-- An expression is recognised by the decoder: its key is the hostname label and its
operator is `In`. -/
def isHostnameIn (e : NodeSelectorRequirement) : Bool :=
  decide (e.Key = LabelHostname ∧ e.Operator = NodeSelectorOpIn)

/-- All the expressions of a list of selector terms, in scan order. -/
def allExpressions (terms : List NodeSelectorTerm) : List NodeSelectorRequirement :=
  terms.flatMap (fun t => t.MatchExpressions)

/-- The first recognised expression of a term, if it has one. -/
def firstMatch (t : NodeSelectorTerm) : Option NodeSelectorRequirement :=
  t.MatchExpressions.find? isHostnameIn

/-- An expression carries a non-empty value. -/
def carriesNonEmptyValue (e : NodeSelectorRequirement) : Bool :=
  e.Values.any (fun v => decide (v ≠ []))

/-- The expression at which the scan of the terms stops: the first expression, among the
first recognised expressions of the terms, whose values are not the single empty
value. -/
def decidingExpression (terms : List NodeSelectorTerm) : Option NodeSelectorRequirement :=
  (terms.filterMap firstMatch).find? (fun e => decide (e.Values ≠ [[]]))

/-- The scan of the terms meets a recognised expression with a number of values other
than one: the expression at which it stops has no value or at least two values. -/
def meetsWrongValueCount (terms : List NodeSelectorTerm) : Bool :=
  match decidingExpression terms with
  | some e => decide (e.Values.length ≠ 1)
  | none => false

/-- A request is a status fetch. -/
def Call.isGet : Call → Bool
  | .get _ _ => true
  | _ => false

/-- A request is a pod deletion. -/
def Call.isDelete : Call → Bool
  | .delete _ _ => true
  | _ => false

/-- A request is a pod creation. -/
def Call.isCreate : Call → Bool
  | .create _ _ => true
  | _ => false

/-- The pod name a request is made under; a sleep has none. -/
def Call.podName : Call → Option GoString
  | .create _ pod => some pod.ObjectMeta.Name
  | .get _ name => some name
  | .delete _ name => some name
  | .sleep _ => none

/-- The name of the descriptor a run submitted: the name in its first request. -/
def submittedName (calls : List Call) : Option GoString :=
  match calls with
  | .create _ pod :: _ => some pod.ObjectMeta.Name
  | _ => none

/-- The submission was accepted by `createHelperPod`: it succeeded, or it failed with an
already-exists error (the negation of `err != nil && !k8serror.IsAlreadyExists(err)`). -/
def submissionAccepted (created : Option GoError) : Bool :=
  match created with
  | none => true
  | some e => IsAlreadyExists e

/-- The requests of `n` polling rounds that do not end the loop: a fetch, then a sleep
of one second. -/
def pendingRounds (ns name : GoString) (n : Nat) : List Call :=
  (List.replicate n [Call.get ns name, Call.sleep 1]).flatten

/-- The answer of the cluster to the submission made by `createHelperPod`. -/
def submitResult (p : HostPathProvisioner) (action : ActionType)
    (pvName fullPath nodeName : GoString) : Option GoError :=
  p.kubeClient.podsCreate p.namespace_ (helperPod p action pvName fullPath nodeName)

/-- The answer of the cluster to the `i`-th status fetch (from 0) of `createHelperPod`. -/
def fetchResult (p : HostPathProvisioner) (action : ActionType)
    (pvName fullPath nodeName : GoString) (i : Nat) : Except GoError Pod :=
  p.kubeClient.podsGet i p.namespace_
    (helperPod p action pvName fullPath nodeName).ObjectMeta.Name

/-- The provisioner `p` on a cluster that answers the pod deletion by `d`. -/
def withDelete (p : HostPathProvisioner) (d : GoString → GoString → Option GoError) :
    HostPathProvisioner :=
  { p with kubeClient := { p.kubeClient with podsDelete := d } }

/-! ## Concrete objects used to exercise the definitions -/

/-- A pod as the API server reports it, with the given phase and node. -/
def reportedPod (phase nodeName : GoString) : Pod :=
  { ObjectMeta := { Name := str "helper" }
    Spec := { Containers := [], Volumes := [], NodeName := nodeName, RestartPolicy := RestartPolicyNever }
    Status := { Phase := phase } }

/-- A cluster that accepts the pod and whose status stays `Pending`. -/
def pendingClient : Clientset :=
  { podsCreate := fun _ _ => none
    podsGet := fun _ _ _ => .ok (reportedPod PodPending [])
    podsDelete := fun _ _ => none }

/-- A provisioner in the namespace `default`, on the cluster `pendingClient`. -/
def exampleProvisioner : HostPathProvisioner :=
  { kubeClient := pendingClient, namespace_ := str "default" }

/-- Provision options for the volume `pvc-1` of the claim `default/data`, with the
reclaim policy `Retain`. -/
def exampleOptions : ProvisionOptions :=
  { PVName := str "pvc-1"
    PVC := { Namespace := str "default", Name := str "data", AccessModes := [str "ReadWriteOnce"]
             Requests := [(ResourceStorage, 1)] }
    SelectedNode := none
    ReclaimPolicy := PersistentVolumeReclaimRetain }

/-- The path of the backing directory of `exampleOptions`. -/
def examplePath : GoString := str "/var/my-storage-provisioner/pvc-1_default_data"

/-- The expression with the hostname label, the operator `In` and two values. -/
def twoValuesExpression : NodeSelectorRequirement :=
  ⟨LabelHostname, NodeSelectorOpIn, [str "node-1", str "node-2"]⟩

/-- A required section whose only recognised expression is `twoValuesExpression`; it
sits in the second term, after an unrelated expression. -/
def twoValuesRequired : NodeSelector :=
  { NodeSelectorTerms :=
      [ { MatchExpressions := [⟨str "zone", NodeSelectorOpIn, [str "a"]⟩] },
        { MatchExpressions := [⟨str "zone", NodeSelectorOpIn, [str "b"]⟩, twoValuesExpression] } ] }

/-- A volume with a host path source and the required section `twoValuesRequired`. -/
def pvTwoValues : PersistentVolume :=
  { ObjectMeta := { Name := str "pv-two" }
    Spec :=
      { PersistentVolumeReclaimPolicy := PersistentVolumeReclaimDelete
        AccessModes := []
        VolumeMode := none
        Capacity := []
        PersistentVolumeSource := { HostPath := some { Path := examplePath } }
        NodeAffinity := some { Required := some twoValuesRequired } } }

/-- A volume without a host path source, with a well-formed affinity for `node-1`. -/
def pvNoLocation : PersistentVolume :=
  { ObjectMeta := { Name := str "pv-noloc" }
    Spec :=
      { PersistentVolumeReclaimPolicy := PersistentVolumeReclaimDelete
        AccessModes := []
        VolumeMode := none
        Capacity := []
        PersistentVolumeSource := { HostPath := none }
        NodeAffinity := some { Required := some { NodeSelectorTerms :=
          [ { MatchExpressions := [⟨LabelHostname, NodeSelectorOpIn, [str "node-1"]⟩] } ] } } } }

/-- A volume without a host path source, with the required section
`twoValuesRequired`. -/
def pvNoLocationTwoValues : PersistentVolume :=
  { ObjectMeta := { Name := str "pv-noloc-two" }
    Spec :=
      { PersistentVolumeReclaimPolicy := PersistentVolumeReclaimDelete
        AccessModes := []
        VolumeMode := none
        Capacity := []
        PersistentVolumeSource := { HostPath := none }
        NodeAffinity := some { Required := some twoValuesRequired } } }

/-- A volume with a host path source and a required section without any term. -/
def pvNoMatchingTerm : PersistentVolume :=
  { ObjectMeta := { Name := str "pv-noterm" }
    Spec :=
      { PersistentVolumeReclaimPolicy := PersistentVolumeReclaimDelete
        AccessModes := []
        VolumeMode := none
        Capacity := []
        PersistentVolumeSource := { HostPath := some { Path := examplePath } }
        NodeAffinity := some { Required := some { NodeSelectorTerms := [] } } } }

/-- A volume without an affinity section. -/
def pvNoAffinity : PersistentVolume :=
  { ObjectMeta := { Name := str "pv-noaff" }
    Spec :=
      { PersistentVolumeReclaimPolicy := PersistentVolumeReclaimDelete
        AccessModes := []
        VolumeMode := none
        Capacity := []
        PersistentVolumeSource := { HostPath := some { Path := examplePath } }
        NodeAffinity := none } }

/-- A volume with an affinity section without a required section. -/
def pvNoRequired : PersistentVolume :=
  { ObjectMeta := { Name := str "pv-noreq" }
    Spec :=
      { PersistentVolumeReclaimPolicy := PersistentVolumeReclaimDelete
        AccessModes := []
        VolumeMode := none
        Capacity := []
        PersistentVolumeSource := { HostPath := some { Path := examplePath } }
        NodeAffinity := some { Required := none } } }

/-- A volume whose first term holds a recognised expression with the empty value, and
whose second term holds, after an unrelated expression, two recognised expressions, for
`node-2` and for `node-3`. -/
def pvSecondTerm : PersistentVolume :=
  { ObjectMeta := { Name := str "pv-second" }
    Spec :=
      { PersistentVolumeReclaimPolicy := PersistentVolumeReclaimDelete
        AccessModes := []
        VolumeMode := none
        Capacity := []
        PersistentVolumeSource := { HostPath := some { Path := examplePath } }
        NodeAffinity := some { Required := some { NodeSelectorTerms :=
          [ { MatchExpressions := [⟨LabelHostname, NodeSelectorOpIn, [[]]⟩] },
            { MatchExpressions :=
                [ ⟨str "zone", NodeSelectorOpIn, [str "a"]⟩,
                  ⟨LabelHostname, NodeSelectorOpIn, [str "node-2"]⟩,
                  ⟨LabelHostname, NodeSelectorOpIn, [str "node-3"]⟩ ] } ] } } } }

/-- A cluster that refuses the pod with an error other than already-exists. -/
def rejectingClient : Clientset :=
  { podsCreate := fun _ _ => some (.status (str "Forbidden") (str "pods is forbidden"))
    podsGet := fun _ _ _ => .ok (reportedPod PodPending [])
    podsDelete := fun _ _ => none }

/-- A provisioner on the cluster `rejectingClient`. -/
def rejectingProvisioner : HostPathProvisioner :=
  { kubeClient := rejectingClient, namespace_ := str "default" }

/-- A cluster where the pod already exists, its status is `Failed` at every fetch, and
its deletion fails. -/
def failedPodClient : Clientset :=
  { podsCreate := fun _ _ => some (.status (str "AlreadyExists") (str "pod already exists"))
    podsGet := fun _ _ _ => .ok (reportedPod PodFailed (str "node-1"))
    podsDelete := fun _ _ => some (.status (str "InternalError") (str "deletion failed")) }

/-- A provisioner on the cluster `failedPodClient`. -/
def failedPodProvisioner : HostPathProvisioner :=
  { kubeClient := failedPodClient, namespace_ := str "default" }

/-- A cluster where the pod already exists, is `Pending` at the first two fetches and
`Succeeded` on the node `node-b` from the third fetch on, and its deletion fails. -/
def succeedingClient : Clientset :=
  { podsCreate := fun _ _ => some (.status (str "AlreadyExists") (str "pod already exists"))
    podsGet := fun i _ _ =>
      if i < 2 then .ok (reportedPod PodPending []) else .ok (reportedPod PodSucceeded (str "node-b"))
    podsDelete := fun _ _ => some (.status (str "InternalError") (str "deletion failed")) }

/-- A provisioner on the cluster `succeedingClient`. -/
def succeedingProvisioner : HostPathProvisioner :=
  { kubeClient := succeedingClient, namespace_ := str "default" }

/-- A resource name of 93 bytes. -/
def longNameA : GoString := List.replicate 91 97 ++ str "-a"

/-- A resource name of 93 bytes that differs from `longNameA` in its last byte. -/
def longNameB : GoString := List.replicate 91 97 ++ str "-b"

/-! # Theorems -/

/-! ## Lemmas on the decoder -/

/-- The inner loop stops at a recognised expression: it checks the number of its values. -/
theorem scanExpressions_cons_match (e : NodeSelectorRequirement) (rest : List NodeSelectorRequirement)
    (node : GoString) (h : isHostnameIn e = true) :
    scanExpressions (e :: rest) node =
      if e.Values.length ≠ 1 then
        .error (.errorf (str "multiple values for the node affinity"))
      else .ok (e.Values.headD []) := by
  have h' : e.Key = LabelHostname ∧ e.Operator = NodeSelectorOpIn := by
    simpa [isHostnameIn] using h
  simp only [scanExpressions, if_pos h']

/-- The inner loop passes over an expression that is not recognised. -/
theorem scanExpressions_cons_skip (e : NodeSelectorRequirement) (rest : List NodeSelectorRequirement)
    (node : GoString) (h : isHostnameIn e = false) :
    scanExpressions (e :: rest) node = scanExpressions rest node := by
  have h' : ¬ (e.Key = LabelHostname ∧ e.Operator = NodeSelectorOpIn) := by
    simpa [isHostnameIn] using h
  simp only [scanExpressions, if_neg h']

/-- The inner loop is decided by the first recognised expression of the term. -/
theorem scanExpressions_eq (es : List NodeSelectorRequirement) (node : GoString) :
    scanExpressions es node =
      match es.find? isHostnameIn with
      | none => .ok node
      | some e =>
        if e.Values.length ≠ 1 then
          .error (.errorf (str "multiple values for the node affinity"))
        else .ok (e.Values.headD []) := by
  induction es with
  | nil => rfl
  | cons e rest ih =>
    cases h : isHostnameIn e with
    | true => rw [scanExpressions_cons_match e rest node h, List.find?_cons_of_pos _ h]
    | false => rw [scanExpressions_cons_skip e rest node h, List.find?_cons_of_neg _ (by simp [h]), ih]

/-- One step of the outer loop, from the empty node. -/
theorem scanTerms_cons (t : NodeSelectorTerm) (rest : List NodeSelectorTerm) :
    scanTerms (t :: rest) [] =
      match firstMatch t with
      | none => scanTerms rest []
      | some e =>
        if e.Values.length ≠ 1 then
          .error (.errorf (str "multiple values for the node affinity"))
        else if e.Values.headD [] ≠ [] then .ok (e.Values.headD [])
        else scanTerms rest [] := by
  simp only [scanTerms, scanExpressions_eq, firstMatch]
  cases h : List.find? isHostnameIn t.MatchExpressions with
  | none => simp
  | some e =>
    by_cases hl : e.Values.length ≠ 1
    · simp only [if_pos hl]
    · simp only [if_neg hl]
      by_cases hv : e.Values.headD [] ≠ []
      · simp only [if_pos hv]
      · simp only [if_neg hv]
        rw [not_not.mp hv]

/-- The first recognised expression of a term belongs to the term and is recognised. -/
theorem firstMatch_some {t : NodeSelectorTerm} {e : NodeSelectorRequirement}
    (h : firstMatch t = some e) : e ∈ t.MatchExpressions ∧ isHostnameIn e = true :=
  ⟨List.mem_of_find?_eq_some h, List.find?_some h⟩

/-- A term without first recognised expression holds no recognised expression. -/
theorem firstMatch_none {t : NodeSelectorTerm} (h : firstMatch t = none) :
    ∀ e ∈ t.MatchExpressions, isHostnameIn e = false := by
  intro e he
  have := List.find?_eq_none.mp h e he
  simpa using this

/-- An expression of the terms is an expression of one of the terms. -/
theorem mem_allExpressions {ts : List NodeSelectorTerm} {e : NodeSelectorRequirement} :
    e ∈ allExpressions ts ↔ ∃ t ∈ ts, e ∈ t.MatchExpressions := by
  simp [allExpressions, List.mem_flatMap]

/-- When every recognised expression has a number of values other than one, and there is
a recognised expression, the scan returns the error on the number of values. -/
theorem scanTerms_bad_values (ts : List NodeSelectorTerm)
    (hbad : ∀ e ∈ allExpressions ts, isHostnameIn e = true → e.Values.length ≠ 1)
    (hex : ∃ e ∈ allExpressions ts, isHostnameIn e = true) :
    scanTerms ts [] = .error (.errorf (str "multiple values for the node affinity")) := by
  induction ts with
  | nil =>
    obtain ⟨e, he, _⟩ := hex
    simp [allExpressions] at he
  | cons t rest ih =>
    rw [scanTerms_cons]
    cases h : firstMatch t with
    | some e =>
      obtain ⟨hmem, hrec⟩ := firstMatch_some h
      have : e.Values.length ≠ 1 :=
        hbad e (mem_allExpressions.mpr ⟨t, List.mem_cons_self _ _, hmem⟩) hrec
      simp [this]
    | none =>
      simp only
      apply ih
      · intro e he hrec
        obtain ⟨t', ht', hm⟩ := mem_allExpressions.mp he
        exact hbad e (mem_allExpressions.mpr ⟨t', List.mem_cons_of_mem _ ht', hm⟩) hrec
      · obtain ⟨e, he, hrec⟩ := hex
        obtain ⟨t', ht', hm⟩ := mem_allExpressions.mp he
        rcases List.mem_cons.mp ht' with rfl | ht'
        · have := firstMatch_none h e hm
          rw [this] at hrec
          exact absurd hrec (by simp)
        · exact ⟨e, mem_allExpressions.mpr ⟨t', ht', hm⟩, hrec⟩

/-- A non-empty node returned by the scan is the sole value of the first expression,
among the first recognised expressions of the terms, that carries a non-empty value. -/
theorem scanTerms_ok (ts : List NodeSelectorTerm) (n : GoString)
    (h : scanTerms ts [] = .ok n) (hn : n ≠ []) :
    ∃ e, (ts.filterMap firstMatch).find? carriesNonEmptyValue = some e ∧ e.Values = [n] := by
  induction ts with
  | nil =>
    simp only [scanTerms, Except.ok.injEq] at h
    exact absurd h.symm hn
  | cons t rest ih =>
    rw [scanTerms_cons] at h
    cases hf : firstMatch t with
    | none =>
      rw [hf] at h
      simp only [List.filterMap_cons, hf]
      exact ih h
    | some e =>
      rw [hf] at h
      simp only [List.filterMap_cons, hf]
      by_cases hl : e.Values.length ≠ 1
      · simp [hl] at h
      · have hl' : e.Values.length = 1 := by simpa using hl
        obtain ⟨v, hv⟩ := List.length_eq_one.mp hl'
        simp only [hv, List.length_singleton, ne_eq, not_true_eq_false, if_false,
          List.headD_cons, ite_not] at h
        by_cases hv0 : v = []
        · rw [if_pos hv0] at h
          rw [List.find?_cons_of_neg]
          · exact ih h
          · simp [carriesNonEmptyValue, hv, hv0]
        · rw [if_neg hv0] at h
          cases h
          refine ⟨e, ?_, hv⟩
          rw [List.find?_cons_of_pos]
          simp [carriesNonEmptyValue, hv, hv0]

/-- The only error the scan of the terms returns is the one on the number of values. -/
theorem scanTerms_error (ts : List NodeSelectorTerm) (err : GoError)
    (h : scanTerms ts [] = .error err) :
    err = .errorf (str "multiple values for the node affinity") := by
  induction ts with
  | nil => simp [scanTerms] at h
  | cons t rest ih =>
    rw [scanTerms_cons] at h
    cases hf : firstMatch t with
    | none =>
      rw [hf] at h
      exact ih h
    | some e =>
      rw [hf] at h
      simp only at h
      split_ifs at h with h1 h2
      · cases h; rfl
      · exact ih h

/-- The scan of the terms is decided by the expression at which it stops. -/
theorem scanTerms_eq_deciding (ts : List NodeSelectorTerm) :
    scanTerms ts [] =
      match decidingExpression ts with
      | none => .ok []
      | some e =>
        if e.Values.length ≠ 1 then
          .error (.errorf (str "multiple values for the node affinity"))
        else .ok (e.Values.headD []) := by
  induction ts with
  | nil => rfl
  | cons t rest ih =>
    rw [scanTerms_cons]
    cases hf : firstMatch t with
    | none =>
      simp only [decidingExpression, List.filterMap_cons, hf]
      exact ih
    | some e =>
      simp only [decidingExpression, List.filterMap_cons, hf]
      by_cases hl : e.Values.length ≠ 1
      · have hne : e.Values ≠ [[]] := fun h => hl (by rw [h]; rfl)
        rw [List.find?_cons_of_pos _ (by simpa using hne)]
        simp only [if_pos hl]
      · obtain ⟨v, hv⟩ := List.length_eq_one.mp (not_not.mp hl)
        by_cases hv0 : v = []
        · subst hv0
          rw [List.find?_cons_of_neg _ (by simp [hv])]
          simp only [hv, List.length_singleton, ne_eq, not_true_eq_false, if_false,
            List.headD_cons]
          exact ih
        · have hne : e.Values ≠ [[]] := by
            rw [hv]
            intro h
            exact hv0 (List.head_eq_of_cons_eq h)
          rw [List.find?_cons_of_pos _ (by simpa using hne)]
          simp only [hv, List.length_singleton, ne_eq, not_true_eq_false, if_false,
            List.headD_cons, hv0, not_false_eq_true, if_true]

/-- Terms without any recognised expression have no expression at which the scan
stops. -/
theorem decidingExpression_of_no_match (ts : List NodeSelectorTerm)
    (h : ∀ e ∈ allExpressions ts, isHostnameIn e = false) :
    decidingExpression ts = none := by
  have hnil : ts.filterMap firstMatch = [] := by
    rw [List.filterMap_eq_nil_iff]
    intro t ht
    cases hf : firstMatch t with
    | none => rfl
    | some e =>
      obtain ⟨hmem, hrec⟩ := firstMatch_some hf
      rw [h e (mem_allExpressions.mpr ⟨t, ht, hmem⟩)] at hrec
      exact absurd hrec (by simp)
  simp [decidingExpression, hnil]

/-- The scan of the terms returns an error exactly when it meets a recognised expression
with a number of values other than one; otherwise it returns a node, which is empty
exactly when there is no expression at which the scan stops. -/
theorem scanTerms_cases (ts : List NodeSelectorTerm) :
    (meetsWrongValueCount ts = true ∧
      scanTerms ts [] = .error (.errorf (str "multiple values for the node affinity"))) ∨
    (meetsWrongValueCount ts = false ∧ ∃ node, scanTerms ts [] = .ok node ∧
      (node = [] ↔ decidingExpression ts = none)) := by
  rw [scanTerms_eq_deciding]
  unfold meetsWrongValueCount
  cases hd : decidingExpression ts with
  | none => exact Or.inr ⟨rfl, [], rfl, by simp⟩
  | some e =>
    by_cases hl : e.Values.length ≠ 1
    · exact Or.inl ⟨by simpa using hl, by simp only [if_pos hl]⟩
    · refine Or.inr ⟨by simpa using hl, e.Values.headD [], by simp only [if_neg hl], ?_⟩
      obtain ⟨v, hv⟩ := List.length_eq_one.mp (not_not.mp hl)
      have hne : e.Values ≠ [[]] := by
        have := List.find?_some hd
        simpa using this
      have hv0 : v ≠ [] := by
        intro h
        apply hne
        rw [hv, h]
      simp [hv, hv0]

/-- The decoder on an object that has both the affinity section and its required
section. -/
theorem getPathAndNodeForPV_of_required (p : HostPathProvisioner) (pv : PersistentVolume)
    (nodeAffinity : VolumeNodeAffinity) (required : NodeSelector)
    (haff : pv.Spec.NodeAffinity = some nodeAffinity)
    (hreq : nodeAffinity.Required = some required) :
    getPathAndNodeForPV p pv =
      match scanTerms required.NodeSelectorTerms [] with
      | .error e => ⟨[], [], some e⟩
      | .ok node =>
        if node = [] ∨ (match pv.Spec.PersistentVolumeSource.HostPath with
            | some hostPath => hostPath.Path
            | none => []) = [] then
          ⟨[], [], some (.errorf (str "cannot find path or affinited node"))⟩
        else
          ⟨(match pv.Spec.PersistentVolumeSource.HostPath with
            | some hostPath => hostPath.Path
            | none => []), node, none⟩ := by
  simp only [getPathAndNodeForPV, haff, hreq]

/-- The decoder on an object without affinity section. -/
theorem getPathAndNodeForPV_no_affinity (p : HostPathProvisioner) (pv : PersistentVolume)
    (haff : pv.Spec.NodeAffinity = none) :
    getPathAndNodeForPV p pv = ⟨[], [], some (.errorf (str "no NodeAffinity set"))⟩ := by
  simp only [getPathAndNodeForPV, haff]

/-- The decoder on an object whose affinity section has no required section. -/
theorem getPathAndNodeForPV_no_required (p : HostPathProvisioner) (pv : PersistentVolume)
    (nodeAffinity : VolumeNodeAffinity)
    (haff : pv.Spec.NodeAffinity = some nodeAffinity) (hreq : nodeAffinity.Required = none) :
    getPathAndNodeForPV p pv =
      ⟨[], [], some (.errorf (str "no NodeAffinity.Required set"))⟩ := by
  simp only [getPathAndNodeForPV, haff, hreq]

/-! ## Lemmas on the orchestration -/

/-- The descriptor is submitted in the namespace of the provisioner. -/
theorem helperPod_namespace (p : HostPathProvisioner) (action : ActionType)
    (pvName fullPath nodeName : GoString) :
    (helperPod p action pvName fullPath nodeName).ObjectMeta.Namespace = p.namespace_ := by
  unfold helperPod
  simp only
  split <;> rfl

/-- The name of the descriptor is the full name cut to 128 bytes. -/
theorem helperPod_name (p : HostPathProvisioner) (action : ActionType)
    (pvName fullPath nodeName : GoString) :
    (helperPod p action pvName fullPath nodeName).ObjectMeta.Name =
      (helperPodFullName action pvName).take 128 := by
  unfold helperPod
  simp only
  split
  · rfl
  · rename_i h
    simp only
    rw [List.take_of_length_le (by omega)]

/-- The descriptor does not depend on the cluster. -/
theorem helperPod_withDelete (p : HostPathProvisioner)
    (d : GoString → GoString → Option GoError) (action : ActionType)
    (pvName fullPath nodeName : GoString) :
    helperPod (withDelete p d) action pvName fullPath nodeName =
      helperPod p action pvName fullPath nodeName := rfl

/-- One more polling round. -/
theorem pendingRounds_succ (ns name : GoString) (n : Nat) :
    pendingRounds ns name (n + 1) = .get ns name :: .sleep 1 :: pendingRounds ns name n := by
  simp [pendingRounds, List.replicate_succ]

/-- No polling round. -/
theorem pendingRounds_zero (ns name : GoString) : pendingRounds ns name 0 = [] := by
  simp [pendingRounds]

/-- There is one status fetch in each polling round. -/
theorem countP_isGet_pendingRounds (ns name : GoString) (n : Nat) :
    (pendingRounds ns name n).countP Call.isGet = n := by
  induction n with
  | zero => simp [pendingRounds_zero]
  | succ n ih => simp [pendingRounds_succ, Call.isGet, ih]

/-- The polling loop only fetches the status under the given name and sleeps. -/
theorem pollLoop_calls (kubeClient : Clientset) (ns name : GoString) (left i : Nat) :
    ∀ c ∈ (pollLoop kubeClient ns name left i).calls, c = .get ns name ∨ c = .sleep 1 := by
  induction left generalizing i with
  | zero => simp [pollLoop]
  | succ left ih =>
    intro c hc
    unfold pollLoop at hc
    split at hc
    · simp at hc; exact Or.inl hc
    · split at hc
      · simp at hc; exact Or.inl hc
      · simp only [List.mem_cons] at hc
        rcases hc with hc | hc | hc
        · exact Or.inl hc
        · exact Or.inr hc
        · exact ih (i + 1) c hc

/-- The polling loop when none of the fetches left reports the phase `Succeeded`. -/
theorem pollLoop_pending (kubeClient : Clientset) (ns name : GoString) (left i : Nat)
    (h : ∀ j, i ≤ j → j < i + left →
      ∃ pod, kubeClient.podsGet j ns name = .ok pod ∧ pod.Status.Phase ≠ PodSucceeded) :
    pollLoop kubeClient ns name left i =
      { completed := false, scheduledNodeName := [], err := none
        calls := pendingRounds ns name left } := by
  induction left generalizing i with
  | zero => simp [pollLoop, pendingRounds_zero]
  | succ left ih =>
    obtain ⟨pod, hget, hphase⟩ := h i (Nat.le_refl _) (by omega)
    unfold pollLoop
    rw [hget]
    simp only [if_neg hphase]
    rw [ih (i + 1) (fun j h1 h2 => h j (by omega) (by omega)), pendingRounds_succ]

/-- The polling loop when the fetch `i + m` is the first to report `Succeeded`. -/
theorem pollLoop_succeeded (kubeClient : Clientset) (ns name : GoString) (left i m : Nat)
    (pod : Pod) (hm : m < left)
    (h : ∀ j, i ≤ j → j < i + m →
      ∃ q, kubeClient.podsGet j ns name = .ok q ∧ q.Status.Phase ≠ PodSucceeded)
    (hget : kubeClient.podsGet (i + m) ns name = .ok pod)
    (hphase : pod.Status.Phase = PodSucceeded) :
    pollLoop kubeClient ns name left i =
      { completed := true, scheduledNodeName := pod.Spec.NodeName, err := none
        calls := pendingRounds ns name m ++ [.get ns name] } := by
  induction m generalizing i left with
  | zero =>
    obtain ⟨left, rfl⟩ : ∃ l, left = l + 1 := ⟨left - 1, by omega⟩
    unfold pollLoop
    rw [Nat.add_zero] at hget
    rw [hget]
    simp only [if_pos hphase, pendingRounds_zero, List.nil_append]
  | succ m ih =>
    obtain ⟨left, rfl⟩ : ∃ l, left = l + 1 := ⟨left - 1, by omega⟩
    obtain ⟨q, hq, hqphase⟩ := h i (Nat.le_refl _) (by omega)
    unfold pollLoop
    rw [hq]
    simp only [if_neg hqphase]
    rw [ih left (i + 1) (by omega) (fun j h1 h2 => h j (by omega) (by omega))
      (by rw [← hget]; congr 1; omega), pendingRounds_succ]
    rfl

/-- An accepted submission succeeded or reported already-exists. -/
theorem submissionAccepted_iff (created : Option GoError) :
    submissionAccepted created = true ↔
      created = none ∨ ∃ e, created = some e ∧ IsAlreadyExists e = true := by
  cases created with
  | none => simp [submissionAccepted]
  | some e => simp [submissionAccepted]

/-- A submission that is not accepted failed with an error other than already-exists. -/
theorem submissionAccepted_eq_false (created : Option GoError)
    (h : ¬ submissionAccepted created = true) :
    ∃ e, created = some e ∧ IsAlreadyExists e = false := by
  cases created with
  | none => simp [submissionAccepted] at h
  | some e => exact ⟨e, rfl, by simpa [submissionAccepted] using h⟩

/-- A rejected submission (an error other than already-exists) ends `createHelperPod`
right after the creation request. -/
theorem createHelperPod_rejected (p : HostPathProvisioner) (action : ActionType)
    (pvName fullPath nodeName : GoString) (e : GoError)
    (hsub : submitResult p action pvName fullPath nodeName = some e)
    (hother : IsAlreadyExists e = false) :
    createHelperPod p action pvName fullPath nodeName =
      { scheduledNodeName := [], err := some e
        calls := [.create p.namespace_ (helperPod p action pvName fullPath nodeName)]
        logs := [] } := by
  unfold submitResult at hsub
  unfold createHelperPod
  simp only [helperPod_namespace, hsub, Option.filter, hother, Bool.not_false, if_true]

/-- After an accepted submission, `createHelperPod` runs the polling loop and then the
deferred deletion. -/
theorem createHelperPod_accepted (p : HostPathProvisioner) (action : ActionType)
    (pvName fullPath nodeName : GoString)
    (hsub : submissionAccepted (submitResult p action pvName fullPath nodeName) = true) :
    createHelperPod p action pvName fullPath nodeName =
      { scheduledNodeName :=
          match (pollLoop p.kubeClient p.namespace_
              (helperPod p action pvName fullPath nodeName).ObjectMeta.Name 120 0).err with
          | some _ => []
          | none =>
            if (pollLoop p.kubeClient p.namespace_
              (helperPod p action pvName fullPath nodeName).ObjectMeta.Name 120 0).completed
            then (pollLoop p.kubeClient p.namespace_
              (helperPod p action pvName fullPath nodeName).ObjectMeta.Name 120 0).scheduledNodeName
            else []
        err :=
          match (pollLoop p.kubeClient p.namespace_
              (helperPod p action pvName fullPath nodeName).ObjectMeta.Name 120 0).err with
          | some err => some err
          | none =>
            if (pollLoop p.kubeClient p.namespace_
              (helperPod p action pvName fullPath nodeName).ObjectMeta.Name 120 0).completed
            then none
            else some (.errorf (str "create process timeout after 120 seconds"))
        calls :=
          .create p.namespace_ (helperPod p action pvName fullPath nodeName) ::
            (pollLoop p.kubeClient p.namespace_
              (helperPod p action pvName fullPath nodeName).ObjectMeta.Name 120 0).calls ++
            [.delete p.namespace_ (helperPod p action pvName fullPath nodeName).ObjectMeta.Name]
        logs :=
          (deferredDelete p.kubeClient p.namespace_
            (helperPod p action pvName fullPath nodeName).ObjectMeta.Name).2 } := by
  have hfilter : (p.kubeClient.podsCreate p.namespace_
      (helperPod p action pvName fullPath nodeName)).filter (fun err => !IsAlreadyExists err)
        = none := by
    rcases (submissionAccepted_iff _).mp hsub with h | ⟨e, h, he⟩
    · unfold submitResult at h
      rw [h]; rfl
    · unfold submitResult at h
      rw [h]
      simp [Option.filter, he]
  have hdel : (deferredDelete p.kubeClient p.namespace_
      (helperPod p action pvName fullPath nodeName).ObjectMeta.Name).1 =
      [.delete p.namespace_ (helperPod p action pvName fullPath nodeName).ObjectMeta.Name] := by
    unfold deferredDelete
    split <;> rfl
  unfold createHelperPod
  simp only [helperPod_namespace, hfilter, hdel]
  split
  · rfl
  · split <;> simp_all

/-- The answer to the submission does not depend on the answer to the deletion. -/
theorem submitResult_withDelete (p : HostPathProvisioner)
    (d : GoString → GoString → Option GoError) (action : ActionType)
    (pvName fullPath nodeName : GoString) :
    submitResult (withDelete p d) action pvName fullPath nodeName =
      submitResult p action pvName fullPath nodeName := rfl

/-- The polling loop depends on the cluster through the status fetches only. -/
theorem pollLoop_congr (k1 k2 : Clientset) (ns name : GoString) (left i : Nat)
    (h : k1.podsGet = k2.podsGet) :
    pollLoop k1 ns name left i = pollLoop k2 ns name left i := by
  induction left generalizing i with
  | zero => rfl
  | succ left ih =>
    unfold pollLoop
    rw [h, ih (i + 1)]

/-- The polling loop does not depend on the answer to the deletion. -/
theorem pollLoop_withDelete (p : HostPathProvisioner)
    (d : GoString → GoString → Option GoError) (ns name : GoString) (left i : Nat) :
    pollLoop (withDelete p d).kubeClient ns name left i =
      pollLoop p.kubeClient ns name left i :=
  pollLoop_congr _ _ ns name left i rfl

/-- The results and the requests of `createHelperPod` do not depend on the answer of the
cluster to the deletion. -/
theorem createHelperPod_withDelete (p : HostPathProvisioner)
    (d : GoString → GoString → Option GoError) (action : ActionType)
    (pvName fullPath nodeName : GoString) :
    (createHelperPod (withDelete p d) action pvName fullPath nodeName).scheduledNodeName =
        (createHelperPod p action pvName fullPath nodeName).scheduledNodeName ∧
      (createHelperPod (withDelete p d) action pvName fullPath nodeName).err =
        (createHelperPod p action pvName fullPath nodeName).err ∧
      (createHelperPod (withDelete p d) action pvName fullPath nodeName).calls =
        (createHelperPod p action pvName fullPath nodeName).calls := by
  by_cases hsub : submissionAccepted (submitResult p action pvName fullPath nodeName) = true
  · rw [createHelperPod_accepted p action pvName fullPath nodeName hsub,
      createHelperPod_accepted (withDelete p d) action pvName fullPath nodeName
        (by rw [submitResult_withDelete]; exact hsub)]
    simp only [helperPod_withDelete, pollLoop_withDelete]
    exact ⟨rfl, rfl, rfl⟩
  · obtain ⟨e, hres, hother⟩ := submissionAccepted_eq_false _ hsub
    rw [createHelperPod_rejected p action pvName fullPath nodeName e hres hother,
      createHelperPod_rejected (withDelete p d) action pvName fullPath nodeName e
        (by rw [submitResult_withDelete]; exact hres) hother]
    exact ⟨rfl, rfl, rfl⟩

/-- The first request of `createHelperPod` is the creation of the descriptor. -/
theorem submittedName_createHelperPod (p : HostPathProvisioner) (action : ActionType)
    (pvName fullPath nodeName : GoString) :
    submittedName (createHelperPod p action pvName fullPath nodeName).calls =
      some ((helperPodFullName action pvName).take 128) := by
  by_cases hsub : submissionAccepted (submitResult p action pvName fullPath nodeName) = true
  · rw [createHelperPod_accepted p action pvName fullPath nodeName hsub]
    simp only [submittedName, List.cons_append, helperPod_name]
  · obtain ⟨e, hres, hother⟩ := submissionAccepted_eq_false _ hsub
    rw [createHelperPod_rejected p action pvName fullPath nodeName e hres hother]
    simp only [submittedName, helperPod_name]

/-- Every request of `createHelperPod` is made under the name of the descriptor. -/
theorem podName_createHelperPod (p : HostPathProvisioner) (action : ActionType)
    (pvName fullPath nodeName : GoString) :
    ∀ c ∈ (createHelperPod p action pvName fullPath nodeName).calls,
      ∀ n, c.podName = some n → n = (helperPodFullName action pvName).take 128 := by
  intro c hc n hn
  by_cases hsub : submissionAccepted (submitResult p action pvName fullPath nodeName) = true
  · rw [createHelperPod_accepted p action pvName fullPath nodeName hsub] at hc
    simp only [List.cons_append, List.mem_cons, List.mem_append, List.mem_singleton,
      List.not_mem_nil, or_false] at hc
    rcases hc with rfl | hc | rfl
    · simp only [Call.podName, helperPod_name, Option.some.injEq] at hn
      exact hn.symm
    · rcases pollLoop_calls _ _ _ _ _ c hc with rfl | rfl
      · simp only [Call.podName, helperPod_name, Option.some.injEq] at hn
        exact hn.symm
      · simp [Call.podName] at hn
    · simp only [Call.podName, helperPod_name, Option.some.injEq] at hn
      exact hn.symm
  · obtain ⟨e, hres, hother⟩ := submissionAccepted_eq_false _ hsub
    rw [createHelperPod_rejected p action pvName fullPath nodeName e hres hother] at hc
    simp only [List.mem_singleton] at hc
    subst hc
    simp only [Call.podName, helperPod_name, Option.some.injEq] at hn
    exact hn.symm

/-- The length of the full name of the descriptor. -/
theorem length_helperPodFullName (action : ActionType) (pvName : GoString) :
    (helperPodFullName action pvName).length = 31 + action.length + pvName.length := by
  have h1 : (str "my-storage-provisioner-helper-").length = 30 := by decide
  have h2 : (str "-").length = 1 := by decide
  simp only [helperPodFullName, List.length_append, h1, h2]
  omega

/-- The cut of the full name keeps the first bytes of the resource name. -/
theorem take_helperPodFullName (action : ActionType) (pvName : GoString) :
    (helperPodFullName action pvName).take 128 =
      (str "my-storage-provisioner-helper-" ++ action ++ str "-").take 128 ++
        pvName.take (128 - (31 + action.length)) := by
  have h1 : (str "my-storage-provisioner-helper-").length = 30 := by decide
  have h2 : (str "-").length = 1 := by decide
  have hlen : (str "my-storage-provisioner-helper-" ++ action ++ str "-").length =
      31 + action.length := by
    simp only [List.length_append, h1, h2]
    omega
  rw [helperPodFullName, List.take_append_eq_append_take, hlen]

/-- Two descriptor names are equal exactly when the resource names agree on the bytes
that the cut keeps. -/
theorem take_helperPodFullName_eq_iff (action : ActionType) (r1 r2 : GoString) :
    (helperPodFullName action r1).take 128 = (helperPodFullName action r2).take 128 ↔
      r1.take (128 - (31 + action.length)) = r2.take (128 - (31 + action.length)) := by
  rw [take_helperPodFullName, take_helperPodFullName]
  exact List.append_right_inj _

/-! ## The placement decoder: claims C1, C2, C3, C10 -/

/-- C1 (amended): for every non-empty node name `N`, on every storage object built the
way `Provision` builds it (a non-empty host path, and an affinity holding exactly one
term with the single expression hostname label, `In`, `[N]`), `getPathAndNodeForPV`
returns no error, the node `N` and the path of the host path source. -/
theorem roundtrip_of_nonempty_node (p : HostPathProvisioner) (pv : PersistentVolume)
    (hostPath : HostPathVolumeSource) (N : GoString) (fields : List NodeSelectorRequirement)
    (hN : N ≠ [])
    (hloc : pv.Spec.PersistentVolumeSource.HostPath = some hostPath)
    (hpath : hostPath.Path ≠ [])
    (haff : pv.Spec.NodeAffinity = some ⟨some ⟨[⟨[⟨LabelHostname, NodeSelectorOpIn, [N]⟩], fields⟩]⟩⟩) :
    (getPathAndNodeForPV p pv).err = none ∧ (getPathAndNodeForPV p pv).node = N ∧
      (getPathAndNodeForPV p pv).path = hostPath.Path := by
  rw [getPathAndNodeForPV_of_required p pv _ _ haff rfl, hloc]
  have hscan : scanTerms [⟨[⟨LabelHostname, NodeSelectorOpIn, [N]⟩], fields⟩] [] = .ok N := by
    rw [scanTerms_cons]
    have hf : firstMatch ⟨[⟨LabelHostname, NodeSelectorOpIn, [N]⟩], fields⟩ =
        some ⟨LabelHostname, NodeSelectorOpIn, [N]⟩ := by
      simp [firstMatch, isHostnameIn]
    rw [hf]
    simp [hN]
  simp only [hscan]
  simp [hN, hpath]

/-- C1 (counterexample): the storage object `Provision` builds for the empty node name
has a non-empty host path and the one-term, one-expression affinity, and
`getPathAndNodeForPV` returns an error on it. -/
theorem roundtrip_fails_on_empty_node :
    (provisionedPV exampleOptions examplePath []).Spec.PersistentVolumeSource.HostPath =
        some ⟨examplePath, some HostPathDirectoryOrCreate⟩ ∧
      examplePath ≠ [] ∧
      (provisionedPV exampleOptions examplePath []).Spec.NodeAffinity =
        some ⟨some ⟨[⟨[⟨LabelHostname, NodeSelectorOpIn, [[]]⟩], []⟩]⟩⟩ ∧
      getPathAndNodeForPV exampleProvisioner (provisionedPV exampleOptions examplePath []) =
        ⟨[], [], some (.errorf (str "cannot find path or affinited node"))⟩ := by
  refine ⟨rfl, by decide, rfl, by decide⟩

/-- C1 (witness): the object built for the node `node-1` decodes to `node-1`. -/
theorem roundtrip_of_nonempty_node_witness :
    str "node-1" ≠ [] ∧ examplePath ≠ [] ∧
      (getPathAndNodeForPV exampleProvisioner
        (provisionedPV exampleOptions examplePath (str "node-1"))).err = none ∧
      (getPathAndNodeForPV exampleProvisioner
        (provisionedPV exampleOptions examplePath (str "node-1"))).node = str "node-1" ∧
      (getPathAndNodeForPV exampleProvisioner
        (provisionedPV exampleOptions examplePath (str "node-1"))).path = examplePath :=
  ⟨by decide, by decide,
    roundtrip_of_nonempty_node exampleProvisioner
      (provisionedPV exampleOptions examplePath (str "node-1"))
      ⟨examplePath, some HostPathDirectoryOrCreate⟩ (str "node-1") []
      (by decide) rfl (by decide) rfl⟩

/-- C2: on every storage object with an affinity section and a required section whose
terms hold exactly one expression with the hostname label and the operator `In`, among
any other terms and expressions, when that expression carries no value or at least two
values, `getPathAndNodeForPV` returns an error, with an empty path and an empty node. -/
theorem wrong_value_count_rejected (p : HostPathProvisioner) (pv : PersistentVolume)
    (nodeAffinity : VolumeNodeAffinity) (required : NodeSelector)
    (e : NodeSelectorRequirement)
    (haff : pv.Spec.NodeAffinity = some nodeAffinity)
    (hreq : nodeAffinity.Required = some required)
    (hone : (allExpressions required.NodeSelectorTerms).filter isHostnameIn = [e])
    (hvals : e.Values.length = 0 ∨ 2 ≤ e.Values.length) :
    (getPathAndNodeForPV p pv).err =
        some (.errorf (str "multiple values for the node affinity")) ∧
      (getPathAndNodeForPV p pv).path = [] ∧ (getPathAndNodeForPV p pv).node = [] := by
  have hmem : ∀ x, x ∈ (allExpressions required.NodeSelectorTerms).filter isHostnameIn ↔
      x = e := by
    intro x
    rw [hone]
    exact List.mem_singleton
  have hscan : scanTerms required.NodeSelectorTerms [] =
      .error (.errorf (str "multiple values for the node affinity")) := by
    apply scanTerms_bad_values
    · intro x hx hrec
      have : x = e := (hmem x).mp (List.mem_filter.mpr ⟨hx, hrec⟩)
      subst this
      omega
    · have he := (hmem e).mpr rfl
      exact ⟨e, (List.mem_filter.mp he).1, (List.mem_filter.mp he).2⟩
  rw [getPathAndNodeForPV_of_required p pv nodeAffinity required haff hreq, hscan]
  exact ⟨rfl, rfl, rfl⟩

/-- C2 (witness): the volume `pvTwoValues`, whose only recognised expression carries two
values, is rejected. -/
theorem wrong_value_count_rejected_witness :
    (allExpressions twoValuesRequired.NodeSelectorTerms).filter isHostnameIn =
        [twoValuesExpression] ∧
      (twoValuesExpression.Values.length = 0 ∨ 2 ≤ twoValuesExpression.Values.length) ∧
      (getPathAndNodeForPV exampleProvisioner pvTwoValues).err =
        some (.errorf (str "multiple values for the node affinity")) ∧
      (getPathAndNodeForPV exampleProvisioner pvTwoValues).path = [] ∧
      (getPathAndNodeForPV exampleProvisioner pvTwoValues).node = [] :=
  ⟨by decide, by decide,
    wrong_value_count_rejected exampleProvisioner pvTwoValues ⟨some twoValuesRequired⟩
      twoValuesRequired twoValuesExpression rfl rfl (by decide) (by decide)⟩

/-- C3 (counterexample): a volume that lacks its location, with a well-formed affinity,
and a volume that has its location and no matching term get the same error from
`getPathAndNodeForPV`, so the error does not identify the missing location. -/
theorem missing_location_error_not_distinct :
    pvNoLocation.Spec.PersistentVolumeSource.HostPath = none ∧
      pvNoMatchingTerm.Spec.PersistentVolumeSource.HostPath = some ⟨examplePath, none⟩ ∧
      pvNoMatchingTerm.Spec.NodeAffinity = some ⟨some ⟨[]⟩⟩ ∧
      (getPathAndNodeForPV exampleProvisioner pvNoLocation).err =
        some (.errorf (str "cannot find path or affinited node")) ∧
      (getPathAndNodeForPV exampleProvisioner pvNoMatchingTerm).err =
        (getPathAndNodeForPV exampleProvisioner pvNoLocation).err := by
  refine ⟨rfl, rfl, rfl, by decide, by decide⟩

/-- C3 (amended): `getPathAndNodeForPV` returns an error on every storage object that
lacks a host path source, an affinity section or a required section.  The error
`no NodeAffinity set` is returned exactly when the affinity section is missing, and the
error `no NodeAffinity.Required set` exactly when the affinity section is present and its
required section is missing, so these two causes are identified by their error.  A
missing location has no error of its own.  On an object with both sections, the error
`multiple values for the node affinity` is returned exactly when the scan meets a
recognised expression with a number of values other than one, with or without a
location; and the error `cannot find path or affinited node` exactly when it does not
and the scan stops at no expression or the host path is missing or empty.  So a missing
location on an affinity without wrong number of values is reported by
`cannot find path or affinited node`, the error also returned, with or without a
location, when no expression is recognised. -/
theorem missing_sections_rejected (p : HostPathProvisioner) (pv : PersistentVolume) :
    ((pv.Spec.PersistentVolumeSource.HostPath = none ∨ pv.Spec.NodeAffinity = none ∨
        ∃ nodeAffinity, pv.Spec.NodeAffinity = some nodeAffinity ∧ nodeAffinity.Required = none) →
      (getPathAndNodeForPV p pv).err ≠ none) ∧
    ((getPathAndNodeForPV p pv).err = some (.errorf (str "no NodeAffinity set")) ↔
      pv.Spec.NodeAffinity = none) ∧
    ((getPathAndNodeForPV p pv).err = some (.errorf (str "no NodeAffinity.Required set")) ↔
      ∃ nodeAffinity, pv.Spec.NodeAffinity = some nodeAffinity ∧ nodeAffinity.Required = none) ∧
    (pv.Spec.PersistentVolumeSource.HostPath = none →
      (getPathAndNodeForPV p pv).err = some (.errorf (str "no NodeAffinity set")) ∨
      (getPathAndNodeForPV p pv).err = some (.errorf (str "no NodeAffinity.Required set")) ∨
      (getPathAndNodeForPV p pv).err =
        some (.errorf (str "multiple values for the node affinity")) ∨
      (getPathAndNodeForPV p pv).err =
        some (.errorf (str "cannot find path or affinited node"))) ∧
    ((getPathAndNodeForPV p pv).err =
        some (.errorf (str "multiple values for the node affinity")) ↔
      ∃ nodeAffinity required, pv.Spec.NodeAffinity = some nodeAffinity ∧
        nodeAffinity.Required = some required ∧
        meetsWrongValueCount required.NodeSelectorTerms = true) ∧
    ((getPathAndNodeForPV p pv).err =
        some (.errorf (str "cannot find path or affinited node")) ↔
      ∃ nodeAffinity required, pv.Spec.NodeAffinity = some nodeAffinity ∧
        nodeAffinity.Required = some required ∧
        meetsWrongValueCount required.NodeSelectorTerms = false ∧
        (decidingExpression required.NodeSelectorTerms = none ∨
          pv.Spec.PersistentVolumeSource.HostPath = none ∨
          ∃ hostPath, pv.Spec.PersistentVolumeSource.HostPath = some hostPath ∧
            hostPath.Path = [])) ∧
    (pv.Spec.PersistentVolumeSource.HostPath = none →
      ∀ nodeAffinity required, pv.Spec.NodeAffinity = some nodeAffinity →
        nodeAffinity.Required = some required →
        meetsWrongValueCount required.NodeSelectorTerms = false →
        (getPathAndNodeForPV p pv).err =
          some (.errorf (str "cannot find path or affinited node"))) ∧
    (∀ nodeAffinity required, pv.Spec.NodeAffinity = some nodeAffinity →
      nodeAffinity.Required = some required →
      (∀ e ∈ allExpressions required.NodeSelectorTerms, isHostnameIn e = false) →
      (getPathAndNodeForPV p pv).err =
        some (.errorf (str "cannot find path or affinited node"))) := by
  have d12 : str "no NodeAffinity set" ≠ str "no NodeAffinity.Required set" := by decide
  have d13 : str "multiple values for the node affinity" ≠ str "no NodeAffinity set" := by
    decide
  have d14 : str "cannot find path or affinited node" ≠ str "no NodeAffinity set" := by decide
  have d23 : str "multiple values for the node affinity" ≠ str "no NodeAffinity.Required set" := by
    decide
  have d24 : str "cannot find path or affinited node" ≠ str "no NodeAffinity.Required set" := by
    decide
  have d34 : str "multiple values for the node affinity" ≠
      str "cannot find path or affinited node" := by decide
  cases haff : pv.Spec.NodeAffinity with
  | none =>
    rw [getPathAndNodeForPV_no_affinity p pv haff]
    refine ⟨?_, ?_, ?_, ?_, ?_, ?_, ?_, ?_⟩
    · simp
    · simp
    · simp [d12]
    · simp
    · simp [d13.symm]
    · simp [d14.symm]
    · intro _ na req h
      cases h
    · intro na req h
      cases h
  | some nodeAffinity =>
    cases hreq : nodeAffinity.Required with
    | none =>
      rw [getPathAndNodeForPV_no_required p pv nodeAffinity haff hreq]
      refine ⟨?_, ?_, ?_, ?_, ?_, ?_, ?_, ?_⟩
      · simp
      · simp [d12.symm]
      · simp [hreq]
      · simp
      · simp [d23.symm, hreq]
      · simp [d24.symm, hreq]
      · intro _ na req h1 h2
        cases h1
        rw [hreq] at h2
        cases h2
      · intro na req h1 h2
        cases h1
        rw [hreq] at h2
        cases h2
    | some required =>
      rw [getPathAndNodeForPV_of_required p pv nodeAffinity required haff hreq]
      have hsame : ∀ (na : VolumeNodeAffinity) (req : NodeSelector),
          some nodeAffinity = some na → na.Required = some req → req = required := by
        intro na req h1 h2
        cases h1
        rw [hreq] at h2
        cases h2
        rfl
      rcases scanTerms_cases required.NodeSelectorTerms with ⟨hm, hscan⟩ | ⟨hm, node, hscan, hnode⟩
      · rw [hscan]
        refine ⟨?_, ?_, ?_, ?_, ?_, ?_, ?_, ?_⟩
        · simp
        · simp [d13]
        · simp [d23, hreq]
        · simp
        · simp [hreq, hm]
        · simp [d34, hreq, hm]
        · intro _ na req h1 h2 h3
          rw [hsame na req h1 h2, hm] at h3
          cases h3
        · intro na req h1 h2 h3
          rw [hsame na req h1 h2] at h3
          have hd := decidingExpression_of_no_match _ h3
          simp [meetsWrongValueCount, hd] at hm
      · rw [hscan]
        by_cases hbad : node = [] ∨
            (match pv.Spec.PersistentVolumeSource.HostPath with
              | some hostPath => hostPath.Path
              | none => []) = []
        · simp only [if_pos hbad]
          have hcause : decidingExpression required.NodeSelectorTerms = none ∨
              pv.Spec.PersistentVolumeSource.HostPath = none ∨
              ∃ hostPath, pv.Spec.PersistentVolumeSource.HostPath = some hostPath ∧
                hostPath.Path = [] := by
            rcases hbad with h | h
            · exact Or.inl (hnode.mp h)
            · cases hloc : pv.Spec.PersistentVolumeSource.HostPath with
              | none => exact Or.inr (Or.inl rfl)
              | some hostPath =>
                rw [hloc] at h
                exact Or.inr (Or.inr ⟨hostPath, rfl, h⟩)
          refine ⟨?_, ?_, ?_, ?_, ?_, ?_, ?_, ?_⟩
          · simp
          · simp [d14]
          · simp [d24, hreq]
          · simp
          · simp [d34.symm, hreq, hm]
          · simp only [true_iff]
            exact ⟨nodeAffinity, required, rfl, hreq, hm, hcause⟩
          · intro _ _ _ _ _ _
            trivial
          · intro _ _ _ _ _
            trivial
        · simp only [if_neg hbad]
          have hnode0 : node ≠ [] := fun h => hbad (Or.inl h)
          refine ⟨?_, ?_, ?_, ?_, ?_, ?_, ?_, ?_⟩
          · intro h
            rcases h with h | h | ⟨na, h1, h2⟩
            · exact absurd (Or.inr (by rw [h])) hbad
            · cases h
            · cases h1
              rw [hreq] at h2
              cases h2
          · simp
          · simp [hreq]
          · intro h
            exact absurd (Or.inr (by rw [h])) hbad
          · simp [hreq, hm]
          · simp only [false_iff, reduceCtorEq]
            rintro ⟨na, req, h1, h2, _, h4⟩
            have hr := hsame na req h1 h2
            subst hr
            rcases h4 with h | h | ⟨hostPath, h, h'⟩
            · exact hnode0 (hnode.mpr h)
            · exact hbad (Or.inr (by rw [h]))
            · exact hbad (Or.inr (by rw [h]; exact h'))
          · intro h
            exact absurd (Or.inr (by rw [h])) hbad
          · intro na req h1 h2 h3
            rw [hsame na req h1 h2] at h3
            exact absurd (hnode.mpr (decidingExpression_of_no_match _ h3)) hnode0

/-- C3 (witness): the volumes without affinity section and without required section get
their own errors; the volume without location and the volume without matching term get
the same error; the volume without location whose recognised expression carries two
values gets the error on the number of values. -/
theorem missing_sections_rejected_witness :
    (getPathAndNodeForPV exampleProvisioner pvNoLocation).err ≠ none ∧
      (getPathAndNodeForPV exampleProvisioner pvNoAffinity).err =
        some (.errorf (str "no NodeAffinity set")) ∧
      (getPathAndNodeForPV exampleProvisioner pvNoRequired).err =
        some (.errorf (str "no NodeAffinity.Required set")) ∧
      (getPathAndNodeForPV exampleProvisioner pvNoLocation).err =
        some (.errorf (str "cannot find path or affinited node")) ∧
      (getPathAndNodeForPV exampleProvisioner pvNoMatchingTerm).err =
        some (.errorf (str "cannot find path or affinited node")) ∧
      (getPathAndNodeForPV exampleProvisioner pvNoLocationTwoValues).err =
        some (.errorf (str "multiple values for the node affinity")) :=
  ⟨(missing_sections_rejected exampleProvisioner pvNoLocation).1 (Or.inl rfl),
    (missing_sections_rejected exampleProvisioner pvNoAffinity).2.1.mpr rfl,
    (missing_sections_rejected exampleProvisioner pvNoRequired).2.2.1.mpr ⟨⟨none⟩, rfl, rfl⟩,
    (missing_sections_rejected exampleProvisioner pvNoLocation).2.2.2.2.2.2.1 rfl
      ⟨some ⟨[⟨[⟨LabelHostname, NodeSelectorOpIn, [str "node-1"]⟩], []⟩]⟩⟩
      ⟨[⟨[⟨LabelHostname, NodeSelectorOpIn, [str "node-1"]⟩], []⟩]⟩ rfl rfl (by decide),
    (missing_sections_rejected exampleProvisioner pvNoMatchingTerm).2.2.2.2.2.2.2
      ⟨some ⟨[]⟩⟩ ⟨[]⟩ rfl rfl (by simp [allExpressions]),
    (missing_sections_rejected exampleProvisioner pvNoLocationTwoValues).2.2.2.2.1.mpr
      ⟨⟨some twoValuesRequired⟩, twoValuesRequired, rfl, rfl, by decide⟩⟩

/-- C10: when `getPathAndNodeForPV` returns no error, the returned path is not empty and
is the path of the host path source, and the returned node is not empty and is the sole
value of an expression `e` of the required terms with the hostname label and the
operator `In`: `e` is the first expression, in the order of the terms, that is the first
recognised expression of its term and carries a non-empty value. -/
theorem decode_sound (p : HostPathProvisioner) (pv : PersistentVolume)
    (h : (getPathAndNodeForPV p pv).err = none) :
    ∃ hostPath nodeAffinity required e,
      pv.Spec.PersistentVolumeSource.HostPath = some hostPath ∧
      pv.Spec.NodeAffinity = some nodeAffinity ∧
      nodeAffinity.Required = some required ∧
      (getPathAndNodeForPV p pv).path = hostPath.Path ∧
      (getPathAndNodeForPV p pv).path ≠ [] ∧
      (getPathAndNodeForPV p pv).node ≠ [] ∧
      e.Values = [(getPathAndNodeForPV p pv).node] ∧
      e.Key = LabelHostname ∧ e.Operator = NodeSelectorOpIn ∧
      (∃ t ∈ required.NodeSelectorTerms, e ∈ t.MatchExpressions ∧ firstMatch t = some e) ∧
      (required.NodeSelectorTerms.filterMap firstMatch).find? carriesNonEmptyValue = some e := by
  cases haff : pv.Spec.NodeAffinity with
  | none =>
    rw [getPathAndNodeForPV_no_affinity p pv haff] at h
    simp at h
  | some nodeAffinity =>
    cases hreq : nodeAffinity.Required with
    | none =>
      rw [getPathAndNodeForPV_no_required p pv nodeAffinity haff hreq] at h
      simp at h
    | some required =>
      rw [getPathAndNodeForPV_of_required p pv nodeAffinity required haff hreq] at h ⊢
      cases hscan : scanTerms required.NodeSelectorTerms [] with
      | error err =>
        rw [hscan] at h
        simp at h
      | ok node =>
        rw [hscan] at h
        cases hloc : pv.Spec.PersistentVolumeSource.HostPath with
        | none =>
          rw [hloc] at h
          simp at h
        | some hostPath =>
          rw [hloc] at h
          by_cases hbad : node = [] ∨ hostPath.Path = []
          · simp [hbad] at h
          · have hnode : node ≠ [] := fun hx => hbad (Or.inl hx)
            have hpath : hostPath.Path ≠ [] := fun hx => hbad (Or.inr hx)
            obtain ⟨e, hfind, hval⟩ := scanTerms_ok _ node hscan hnode
            obtain ⟨t, ht, hfm⟩ := List.mem_filterMap.mp (List.mem_of_find?_eq_some hfind)
            obtain ⟨hmem, hrec⟩ := firstMatch_some hfm
            have hkey : e.Key = LabelHostname ∧ e.Operator = NodeSelectorOpIn := by
              simpa [isHostnameIn] using hrec
            refine ⟨hostPath, nodeAffinity, required, e, rfl, rfl, hreq, ?_, ?_, ?_, ?_,
              hkey.1, hkey.2, ⟨t, ht, hmem, hfm⟩, hfind⟩
            all_goals simp [hbad, hnode, hpath, hval]

/-- C10 (witness): the volume `pvSecondTerm` decodes without error, to `node-2`. -/
theorem decode_sound_witness :
    (getPathAndNodeForPV exampleProvisioner pvSecondTerm).err = none ∧
      (getPathAndNodeForPV exampleProvisioner pvSecondTerm).node = str "node-2" ∧
      ∃ hostPath nodeAffinity required e,
        pvSecondTerm.Spec.PersistentVolumeSource.HostPath = some hostPath ∧
        pvSecondTerm.Spec.NodeAffinity = some nodeAffinity ∧
        nodeAffinity.Required = some required ∧
        (getPathAndNodeForPV exampleProvisioner pvSecondTerm).path = hostPath.Path ∧
        (getPathAndNodeForPV exampleProvisioner pvSecondTerm).path ≠ [] ∧
        (getPathAndNodeForPV exampleProvisioner pvSecondTerm).node ≠ [] ∧
        e.Values = [(getPathAndNodeForPV exampleProvisioner pvSecondTerm).node] ∧
        e.Key = LabelHostname ∧ e.Operator = NodeSelectorOpIn ∧
        (∃ t ∈ required.NodeSelectorTerms, e ∈ t.MatchExpressions ∧ firstMatch t = some e) ∧
        (required.NodeSelectorTerms.filterMap firstMatch).find? carriesNonEmptyValue = some e :=
  ⟨by decide, by decide, decode_sound exampleProvisioner pvSecondTerm (by decide)⟩

/-! ## The entrypoint `Delete`: claim C4 -/

/-- C4: when the reclaim policy of the storage object is `Retain`, `Delete` issues no
request to the cluster (no pod is created, fetched or deleted) and logs nothing,
whatever the rest of the object holds. -/
theorem delete_retain_issues_nothing (p : HostPathProvisioner) (pv : PersistentVolume)
    (h : pv.Spec.PersistentVolumeReclaimPolicy = PersistentVolumeReclaimRetain) :
    (Delete p pv).calls = [] ∧ (Delete p pv).logs = [] := by
  unfold Delete
  simp only [h, ne_eq, not_true_eq_false, if_false]
  split <;> exact ⟨rfl, rfl⟩

/-- C4 (witness): the deletion of a provisioned volume with the policy `Retain`, which
decodes without error. -/
theorem delete_retain_issues_nothing_witness :
    (provisionedPV exampleOptions examplePath
        (str "node-1")).Spec.PersistentVolumeReclaimPolicy = PersistentVolumeReclaimRetain ∧
      (Delete exampleProvisioner
        (provisionedPV exampleOptions examplePath (str "node-1"))).calls = [] ∧
      (Delete exampleProvisioner
        (provisionedPV exampleOptions examplePath (str "node-1"))).logs = [] :=
  ⟨rfl, delete_retain_issues_nothing exampleProvisioner
    (provisionedPV exampleOptions examplePath (str "node-1")) rfl⟩

/-! ## The orchestration: claims C5, C6, C7 -/

/-- C5 (counterexample): when the cluster refuses the pod with an error other than
already-exists, `createHelperPod` returns after the creation request alone and issues no
deletion. -/
theorem no_delete_after_rejected_submission :
    submitResult rejectingProvisioner ActionTypeCreate (str "pvc-1") examplePath [] =
        some (.status (str "Forbidden") (str "pods is forbidden")) ∧
      IsAlreadyExists (.status (str "Forbidden") (str "pods is forbidden")) = false ∧
      (createHelperPod rejectingProvisioner ActionTypeCreate (str "pvc-1") examplePath []).calls =
        [.create (str "default")
          (helperPod rejectingProvisioner ActionTypeCreate (str "pvc-1") examplePath [])] ∧
      (createHelperPod rejectingProvisioner ActionTypeCreate (str "pvc-1") examplePath
        []).calls.any Call.isDelete = false := by
  have h := createHelperPod_rejected rejectingProvisioner ActionTypeCreate (str "pvc-1")
    examplePath [] (.status (str "Forbidden") (str "pods is forbidden")) rfl (by decide)
  refine ⟨rfl, by decide, ?_, ?_⟩
  · rw [h]; rfl
  · rw [h]; rfl

/-- C5 (amended): for every behaviour of the cluster, when the submission succeeds or
reports already-exists, `createHelperPod` issues, after the creation request, only status
fetches under the submitted name and sleeps, and then, as its last request before it
returns, one deletion under the submitted name, whether it ends in success, in a
status-fetch failure or in a timeout; when the submission fails otherwise, it returns that
error after the creation request alone. -/
theorem cleanup_after_accepted_submission (p : HostPathProvisioner) (action : ActionType)
    (pvName fullPath nodeName : GoString) :
    (submissionAccepted (submitResult p action pvName fullPath nodeName) = true →
      ∃ polls,
        (createHelperPod p action pvName fullPath nodeName).calls =
          .create p.namespace_ (helperPod p action pvName fullPath nodeName) :: polls ++
            [.delete p.namespace_ (helperPod p action pvName fullPath nodeName).ObjectMeta.Name] ∧
        ∀ c ∈ polls,
          c = .get p.namespace_ (helperPod p action pvName fullPath nodeName).ObjectMeta.Name ∨
          c = .sleep 1) ∧
    (submissionAccepted (submitResult p action pvName fullPath nodeName) = false →
      (createHelperPod p action pvName fullPath nodeName).calls =
        [.create p.namespace_ (helperPod p action pvName fullPath nodeName)] ∧
      (createHelperPod p action pvName fullPath nodeName).err =
        submitResult p action pvName fullPath nodeName ∧
      (createHelperPod p action pvName fullPath nodeName).scheduledNodeName = []) := by
  constructor
  · intro hsub
    rw [createHelperPod_accepted p action pvName fullPath nodeName hsub]
    exact ⟨_, rfl, pollLoop_calls _ _ _ _ _⟩
  · intro hsub
    obtain ⟨e, hres, hother⟩ := submissionAccepted_eq_false
      (submitResult p action pvName fullPath nodeName) (by simp [hsub])
    rw [createHelperPod_rejected p action pvName fullPath nodeName e hres hother, hres]
    exact ⟨rfl, rfl, rfl⟩

/-- C5 (witness): on a cluster where the pod already exists and never succeeds, the
deletion is the last request; on a cluster that refuses the pod, the creation is the only
request. -/
theorem cleanup_after_accepted_submission_witness :
    (∃ polls,
      (createHelperPod failedPodProvisioner ActionTypeDelete (str "pvc-1") examplePath
          (str "node-1")).calls =
        .create (str "default")
            (helperPod failedPodProvisioner ActionTypeDelete (str "pvc-1") examplePath
              (str "node-1")) :: polls ++
          [.delete (str "default")
            (helperPod failedPodProvisioner ActionTypeDelete (str "pvc-1") examplePath
              (str "node-1")).ObjectMeta.Name] ∧
      ∀ c ∈ polls,
        c = .get (str "default")
            (helperPod failedPodProvisioner ActionTypeDelete (str "pvc-1") examplePath
              (str "node-1")).ObjectMeta.Name ∨
        c = .sleep 1) ∧
    ((createHelperPod rejectingProvisioner ActionTypeCreate (str "pvc-1") examplePath []).calls =
        [.create (str "default")
          (helperPod rejectingProvisioner ActionTypeCreate (str "pvc-1") examplePath [])] ∧
      (createHelperPod rejectingProvisioner ActionTypeCreate (str "pvc-1") examplePath []).err =
        some (.status (str "Forbidden") (str "pods is forbidden")) ∧
      (createHelperPod rejectingProvisioner ActionTypeCreate (str "pvc-1") examplePath
        []).scheduledNodeName = []) :=
  ⟨(cleanup_after_accepted_submission failedPodProvisioner ActionTypeDelete (str "pvc-1")
      examplePath (str "node-1")).1 rfl,
    (cleanup_after_accepted_submission rejectingProvisioner ActionTypeCreate (str "pvc-1")
      examplePath []).2 (by decide)⟩

/-- C6: when the submission succeeds or reports already-exists and each of the status
fetches succeeds without reporting the phase `Succeeded` (the phase `Failed` included),
`createHelperPod` issues exactly 120 status fetches, then the deletion of the pod, and
returns the timeout error with an empty node; the results and the requests are the same
whatever the cluster answers to the deletion. -/
theorem timeout_after_120_fetches (p : HostPathProvisioner) (action : ActionType)
    (pvName fullPath nodeName : GoString)
    (hsub : submissionAccepted (submitResult p action pvName fullPath nodeName) = true)
    (hpending : ∀ i, i < 120 →
      ∃ pod, fetchResult p action pvName fullPath nodeName i = .ok pod ∧
        pod.Status.Phase ≠ PodSucceeded) :
    (createHelperPod p action pvName fullPath nodeName).calls =
        .create p.namespace_ (helperPod p action pvName fullPath nodeName) ::
          pendingRounds p.namespace_
            (helperPod p action pvName fullPath nodeName).ObjectMeta.Name 120 ++
          [.delete p.namespace_ (helperPod p action pvName fullPath nodeName).ObjectMeta.Name] ∧
      (createHelperPod p action pvName fullPath nodeName).calls.countP Call.isGet = 120 ∧
      (createHelperPod p action pvName fullPath nodeName).calls.countP Call.isDelete = 1 ∧
      (createHelperPod p action pvName fullPath nodeName).scheduledNodeName = [] ∧
      (createHelperPod p action pvName fullPath nodeName).err =
        some (.errorf (str "create process timeout after 120 seconds")) ∧
      ∀ d,
        (createHelperPod (withDelete p d) action pvName fullPath nodeName).scheduledNodeName =
            (createHelperPod p action pvName fullPath nodeName).scheduledNodeName ∧
          (createHelperPod (withDelete p d) action pvName fullPath nodeName).err =
            (createHelperPod p action pvName fullPath nodeName).err ∧
          (createHelperPod (withDelete p d) action pvName fullPath nodeName).calls =
            (createHelperPod p action pvName fullPath nodeName).calls := by
  have hpoll := pollLoop_pending p.kubeClient p.namespace_
    (helperPod p action pvName fullPath nodeName).ObjectMeta.Name 120 0
    (fun j _ hj => hpending j (by omega))
  have hcount : ∀ ns name, (pendingRounds ns name 120).countP Call.isDelete = 0 := by
    intro ns name
    rw [List.countP_eq_zero]
    intro c hc
    simp only [pendingRounds, List.mem_flatten, List.mem_replicate] at hc
    obtain ⟨l, ⟨_, rfl⟩, hc⟩ := hc
    simp only [List.mem_cons, List.mem_singleton, List.not_mem_nil, or_false] at hc
    rcases hc with rfl | rfl <;> simp [Call.isDelete]
  have hrun : createHelperPod p action pvName fullPath nodeName =
      { scheduledNodeName := []
        err := some (.errorf (str "create process timeout after 120 seconds"))
        calls := .create p.namespace_ (helperPod p action pvName fullPath nodeName) ::
          pendingRounds p.namespace_
            (helperPod p action pvName fullPath nodeName).ObjectMeta.Name 120 ++
          [.delete p.namespace_ (helperPod p action pvName fullPath nodeName).ObjectMeta.Name]
        logs := (deferredDelete p.kubeClient p.namespace_
            (helperPod p action pvName fullPath nodeName).ObjectMeta.Name).2 } := by
    rw [createHelperPod_accepted p action pvName fullPath nodeName hsub, hpoll]
    rfl
  refine ⟨?_, ?_, ?_, ?_, ?_, fun d => createHelperPod_withDelete p d action pvName fullPath nodeName⟩
  · rw [hrun]
  · rw [hrun]
    simp [List.countP_cons, List.countP_append, countP_isGet_pendingRounds, Call.isGet]
  · rw [hrun]
    simp [List.countP_cons, List.countP_append, hcount, Call.isDelete]
  · rw [hrun]
  · rw [hrun]

/-- C6 (witness): the pod already exists, stays `Failed`, and its deletion fails. -/
theorem timeout_after_120_fetches_witness :
    submissionAccepted (submitResult failedPodProvisioner ActionTypeDelete (str "pvc-1")
        examplePath (str "node-1")) = true ∧
      (∀ i, i < 120 →
        ∃ pod, fetchResult failedPodProvisioner ActionTypeDelete (str "pvc-1") examplePath
            (str "node-1") i = .ok pod ∧ pod.Status.Phase ≠ PodSucceeded) ∧
      (createHelperPod failedPodProvisioner ActionTypeDelete (str "pvc-1") examplePath
        (str "node-1")).calls.countP Call.isGet = 120 ∧
      (createHelperPod failedPodProvisioner ActionTypeDelete (str "pvc-1") examplePath
        (str "node-1")).scheduledNodeName = [] ∧
      (createHelperPod failedPodProvisioner ActionTypeDelete (str "pvc-1") examplePath
        (str "node-1")).err =
        some (.errorf (str "create process timeout after 120 seconds")) :=
  have hsub : submissionAccepted (submitResult failedPodProvisioner ActionTypeDelete
      (str "pvc-1") examplePath (str "node-1")) = true := rfl
  have hpending : ∀ i, i < 120 →
      ∃ pod, fetchResult failedPodProvisioner ActionTypeDelete (str "pvc-1") examplePath
          (str "node-1") i = .ok pod ∧ pod.Status.Phase ≠ PodSucceeded :=
    fun _ _ => ⟨reportedPod PodFailed (str "node-1"), rfl, by decide⟩
  have h := timeout_after_120_fetches failedPodProvisioner ActionTypeDelete (str "pvc-1")
    examplePath (str "node-1") hsub hpending
  ⟨hsub, hpending, h.2.1, h.2.2.2.1, h.2.2.2.2.1⟩

/-- C7: when the submission succeeds or reports already-exists and the `k`-th status
fetch, `1 ≤ k ≤ 120`, is the first to report the phase `Succeeded`, all earlier fetches
succeeding, `createHelperPod` issues exactly `k` status fetches, then the deletion, and
returns without error the node name of the `k`-th fetched status, for every value of the
argument `nodeName` and whatever the cluster answers to the deletion. -/
theorem success_returns_reported_node (p : HostPathProvisioner) (action : ActionType)
    (pvName fullPath nodeName : GoString) (k : Nat) (pod : Pod)
    (hsub : submissionAccepted (submitResult p action pvName fullPath nodeName) = true)
    (hk1 : 1 ≤ k) (hk2 : k ≤ 120)
    (hearlier : ∀ i, i < k - 1 →
      ∃ q, fetchResult p action pvName fullPath nodeName i = .ok q ∧
        q.Status.Phase ≠ PodSucceeded)
    (hkth : fetchResult p action pvName fullPath nodeName (k - 1) = .ok pod)
    (hphase : pod.Status.Phase = PodSucceeded) :
    (createHelperPod p action pvName fullPath nodeName).calls =
        .create p.namespace_ (helperPod p action pvName fullPath nodeName) ::
          pendingRounds p.namespace_
            (helperPod p action pvName fullPath nodeName).ObjectMeta.Name (k - 1) ++
          [.get p.namespace_ (helperPod p action pvName fullPath nodeName).ObjectMeta.Name,
           .delete p.namespace_ (helperPod p action pvName fullPath nodeName).ObjectMeta.Name] ∧
      (createHelperPod p action pvName fullPath nodeName).calls.countP Call.isGet = k ∧
      (createHelperPod p action pvName fullPath nodeName).err = none ∧
      (createHelperPod p action pvName fullPath nodeName).scheduledNodeName =
        pod.Spec.NodeName ∧
      ∀ d,
        (createHelperPod (withDelete p d) action pvName fullPath nodeName).scheduledNodeName =
            (createHelperPod p action pvName fullPath nodeName).scheduledNodeName ∧
          (createHelperPod (withDelete p d) action pvName fullPath nodeName).err =
            (createHelperPod p action pvName fullPath nodeName).err ∧
          (createHelperPod (withDelete p d) action pvName fullPath nodeName).calls =
            (createHelperPod p action pvName fullPath nodeName).calls := by
  have hpoll := pollLoop_succeeded p.kubeClient p.namespace_
    (helperPod p action pvName fullPath nodeName).ObjectMeta.Name 120 0 (k - 1) pod
    (by omega) (fun j _ hj => hearlier j (by omega))
    (by rw [Nat.zero_add]; exact hkth) hphase
  have hrun : createHelperPod p action pvName fullPath nodeName =
      { scheduledNodeName := pod.Spec.NodeName
        err := none
        calls := .create p.namespace_ (helperPod p action pvName fullPath nodeName) ::
          (pendingRounds p.namespace_
            (helperPod p action pvName fullPath nodeName).ObjectMeta.Name (k - 1) ++
            [.get p.namespace_ (helperPod p action pvName fullPath nodeName).ObjectMeta.Name]) ++
          [.delete p.namespace_ (helperPod p action pvName fullPath nodeName).ObjectMeta.Name]
        logs := (deferredDelete p.kubeClient p.namespace_
            (helperPod p action pvName fullPath nodeName).ObjectMeta.Name).2 } := by
    rw [createHelperPod_accepted p action pvName fullPath nodeName hsub, hpoll]
    rfl
  refine ⟨?_, ?_, ?_, ?_, fun d => createHelperPod_withDelete p d action pvName fullPath nodeName⟩
  · rw [hrun]
    simp
  · rw [hrun]
    simp only [List.countP_cons, List.countP_append, countP_isGet_pendingRounds, Call.isGet,
      List.countP_nil]
    simp
    omega
  · rw [hrun]
  · rw [hrun]

/-- C7 (witness): the pod already exists, the third fetch is the first to report
`Succeeded`, on the node `node-b`, while `node-a` was asked for, and the deletion
fails. -/
theorem success_returns_reported_node_witness :
    submissionAccepted (submitResult succeedingProvisioner ActionTypeCreate (str "pvc-1")
        examplePath (str "node-a")) = true ∧
      (∀ i, i < 3 - 1 →
        ∃ q, fetchResult succeedingProvisioner ActionTypeCreate (str "pvc-1") examplePath
            (str "node-a") i = .ok q ∧ q.Status.Phase ≠ PodSucceeded) ∧
      fetchResult succeedingProvisioner ActionTypeCreate (str "pvc-1") examplePath
        (str "node-a") (3 - 1) = .ok (reportedPod PodSucceeded (str "node-b")) ∧
      (createHelperPod succeedingProvisioner ActionTypeCreate (str "pvc-1") examplePath
        (str "node-a")).calls.countP Call.isGet = 3 ∧
      (createHelperPod succeedingProvisioner ActionTypeCreate (str "pvc-1") examplePath
        (str "node-a")).err = none ∧
      (createHelperPod succeedingProvisioner ActionTypeCreate (str "pvc-1") examplePath
        (str "node-a")).scheduledNodeName = str "node-b" :=
  have hsub : submissionAccepted (submitResult succeedingProvisioner ActionTypeCreate
      (str "pvc-1") examplePath (str "node-a")) = true := rfl
  have hearlier : ∀ i, i < 3 - 1 →
      ∃ q, fetchResult succeedingProvisioner ActionTypeCreate (str "pvc-1") examplePath
          (str "node-a") i = .ok q ∧ q.Status.Phase ≠ PodSucceeded :=
    fun i hi => ⟨reportedPod PodPending [], by
      have : i < 2 := hi
      simp [fetchResult, succeedingProvisioner, succeedingClient, this], by decide⟩
  have h := success_returns_reported_node succeedingProvisioner ActionTypeCreate (str "pvc-1")
    examplePath (str "node-a") 3 (reportedPod PodSucceeded (str "node-b"))
    hsub (by decide) (by decide) hearlier rfl rfl
  ⟨hsub, hearlier, rfl, h.2.1, h.2.2.1, h.2.2.2.1⟩

/-! ## The name of the descriptor: claims C8, C9 -/

/-- C8: the name of the descriptor `createHelperPod` submits is the full name
`my-storage-provisioner-helper-<action>-<pvName>` cut to its first 128 bytes: it has
exactly 128 bytes when the full name is longer than 128, and is the full name unchanged
when that has at most 128 bytes; the creation, every status fetch and the deletion of one
call are made under this name. -/
theorem helper_name_truncated (p : HostPathProvisioner) (action : ActionType)
    (pvName fullPath nodeName : GoString) :
    submittedName (createHelperPod p action pvName fullPath nodeName).calls =
        some ((helperPodFullName action pvName).take 128) ∧
      (128 < (helperPodFullName action pvName).length →
        ((helperPodFullName action pvName).take 128).length = 128) ∧
      ((helperPodFullName action pvName).length ≤ 128 →
        (helperPodFullName action pvName).take 128 = helperPodFullName action pvName) ∧
      ∀ c ∈ (createHelperPod p action pvName fullPath nodeName).calls,
        ∀ n, c.podName = some n → n = (helperPodFullName action pvName).take 128 := by
  refine ⟨submittedName_createHelperPod p action pvName fullPath nodeName, ?_, ?_,
    podName_createHelperPod p action pvName fullPath nodeName⟩
  · intro h
    rw [List.length_take]
    omega
  · intro h
    exact List.take_of_length_le h

/-- C8 (witness): the full name for the 93-byte resource name `longNameA` has 130
bytes and the submitted name 128; the full name for `pvc-1` has 42 bytes and is
submitted unchanged. -/
theorem helper_name_truncated_witness :
    128 < (helperPodFullName ActionTypeCreate longNameA).length ∧
      (helperPodFullName ActionTypeCreate (str "pvc-1")).length ≤ 128 ∧
      ((helperPodFullName ActionTypeCreate longNameA).take 128).length = 128 ∧
      (helperPodFullName ActionTypeCreate (str "pvc-1")).take 128 =
        helperPodFullName ActionTypeCreate (str "pvc-1") :=
  have h1 : 128 < (helperPodFullName ActionTypeCreate longNameA).length := by
    rw [length_helperPodFullName]; decide
  have h2 : (helperPodFullName ActionTypeCreate (str "pvc-1")).length ≤ 128 := by
    rw [length_helperPodFullName]; decide
  ⟨h1, h2,
    (helper_name_truncated exampleProvisioner ActionTypeCreate longNameA examplePath []).2.1 h1,
    (helper_name_truncated exampleProvisioner ActionTypeCreate (str "pvc-1") examplePath
      []).2.2.1 h2⟩

/-- C9 (counterexample): the resource names `longNameA` and `longNameB` are different,
and `createHelperPod` submits for both the descriptor of the same name. -/
theorem long_names_share_descriptor :
    longNameA ≠ longNameB ∧
      submittedName
          (createHelperPod exampleProvisioner ActionTypeDelete longNameA examplePath []).calls =
        submittedName
          (createHelperPod exampleProvisioner ActionTypeDelete longNameB examplePath []).calls := by
  constructor
  · intro h
    have := List.append_cancel_left h
    revert this
    decide
  · rw [submittedName_createHelperPod, submittedName_createHelperPod,
      Option.some.injEq, take_helperPodFullName_eq_iff]
    have h6 : ActionTypeDelete.length = 6 := by decide
    rw [h6]
    simp only [longNameA, longNameB]
    rw [List.take_append_of_le_length (by simp), List.take_append_of_le_length (by simp)]

/-- C9 (amended): for every action, the descriptor names `createHelperPod` submits for two
resource names are different exactly when the resource names differ within their first
`128 - (31 + len(action))` bytes, which is 91 bytes for the two actions of the code. -/
theorem descriptor_names_differ_iff (p : HostPathProvisioner) (action : ActionType)
    (r1 r2 fullPath1 fullPath2 nodeName1 nodeName2 : GoString) :
    submittedName (createHelperPod p action r1 fullPath1 nodeName1).calls ≠
        submittedName (createHelperPod p action r2 fullPath2 nodeName2).calls ↔
      r1.take (128 - (31 + action.length)) ≠ r2.take (128 - (31 + action.length)) := by
  rw [submittedName_createHelperPod, submittedName_createHelperPod, ne_eq, ne_eq,
    Option.some.injEq, take_helperPodFullName_eq_iff]

/-- C9 (witness): the descriptor names submitted for `pvc-1` and `pvc-2` differ. -/
theorem descriptor_names_differ_iff_witness :
    submittedName
        (createHelperPod exampleProvisioner ActionTypeDelete (str "pvc-1") examplePath
          (str "node-1")).calls ≠
      submittedName
        (createHelperPod exampleProvisioner ActionTypeDelete (str "pvc-2") examplePath
          (str "node-1")).calls :=
  (descriptor_names_differ_iff exampleProvisioner ActionTypeDelete (str "pvc-1") (str "pvc-2")
    examplePath examplePath (str "node-1") (str "node-1")).mpr (by decide)

/-- The storage object `Provision` returns is the one built for the node the helper pod
reported. -/
theorem Provision_pv (filepathJoin : GoString → GoString → GoString) (p : HostPathProvisioner)
    (opts : ProvisionOptions) (pv : PersistentVolume)
    (h : (Provision filepathJoin p opts).pv = some pv) :
    ∃ fullPath nodeName,
      (createHelperPod p ActionTypeCreate opts.PVName fullPath nodeName).err = none ∧
      pv = provisionedPV opts fullPath
        (createHelperPod p ActionTypeCreate opts.PVName fullPath nodeName).scheduledNodeName := by
  unfold Provision at h
  simp only at h
  split at h
  · simp at h
  · rename_i herr
    simp only [Option.some.injEq] at h
    exact ⟨_, _, herr, h.symm⟩

end Provisioner
